import Mathlib

/-!
# A verification model of the `mlisp` interpreter

The repository contains two generations of the interpreter:

* `main.cpp` — a complete single-file generation (lexer, parser, evaluator,
  builtin table, REPL).  Modelled below in namespace `Gen1`.
* `src/*.cpp`, `src/*.hpp` — the latest, modular generation (`lexer.cpp`,
  `parser.cpp`, `object.cpp`, `env.cpp`, `eval.cpp`).  Modelled in
  namespace `Gen2`.

Modelling conventions:

* C++ recursion depth is bounded by an explicit fuel parameter; every
  evaluator is one structurally recursive function `run` over a call
  descriptor, so that concrete runs reduce by `rfl`.  `Outcome.timeout`
  means the fuel ran out (the C++ program would still be running).
* A thrown C++ exception (`LexException`, `ParseException`,
  `EvalException`, `EnvException`) is `Outcome.exn` carrying the message
  the source builds.  Reaching C++ undefined behaviour (null `shared_ptr`
  dereference, out-of-bounds `std::vector` subscript, iterator moved or
  dereferenced past the end, integer division by zero) is `Outcome.ub`.
  `std::exit` is `Outcome.exited`.
* `int` is modelled by `Int` (no claim depends on 32-bit overflow, which is
  undefined behaviour in the source), `double` by `Rat` (exact arithmetic;
  host floating point formatting and IEEE specials are outside the model),
  `std::string` by `String`.
* A `shared_ptr<List>` argument chain is a Lean `List` of objects, the null
  pointer being `[]`.  A non-null `List`/`ListObject` cell is
  `Obj.list hd tl`.  The environment chain (each `Env` holding a `symtable`
  map and an `outer` pointer) is a list of frames, the head frame being the
  current environment object and the tail its chain of outer environments;
  `std::map` is an association list (only lookup and assignment are used).
* Mutating builtins (`set`, `setq`, `defun`, `defmacro`), I/O builtins
  (`write*`, `print`, `prin1`, `princ`, `read-*`) and the string builtins
  are outside the modelled fragment: no claim mentions them, so the
  modelled environments never contain them and evaluation never mutates an
  environment.  Consequently results carry no environment component.
-/

namespace MLisp

/-- Result of running a piece of the interpreter. -/
inductive Outcome (α : Type) where
  | ok (v : α)
  | exn (msg : String)
  | ub (msg : String)
  | exited (code : Nat)
  | timeout
  deriving Repr

/-- `Outcome.map`, used to model building a value from a successful call. -/
def Outcome.map {α β : Type} (g : α → β) : Outcome α → Outcome β
  | .ok v => .ok (g v)
  | .exn m => .exn m
  | .ub m => .ub m
  | .exited c => .exited c
  | .timeout => .timeout

/-- The four arithmetic builtins share the `APPLY_ARITH_OP_TO_NUMS` macro;
the operator token is the only difference. -/
inductive ArithOp where
  | add
  | sub
  | mul
  | div
  deriving Repr, DecidableEq

/-- The `#op` stringification used in the macro's error message. -/
def ArithOp.token : ArithOp → String
  | .add => "+"
  | .sub => "-"
  | .mul => "*"
  | .div => "/"

/-- The Lisp-level name used in "too few arguments for" messages. -/
def ArithOp.lispName : ArithOp → String
  | .add => "+"
  | .sub => "-"
  | .mul => "*"
  | .div => "/"

/-- `int op int` inside `APPLY_ARITH_OP_TO_NUMS`.  C++ `/` on `int`
truncates toward zero (`Int.div`); division by zero is undefined behaviour
(no check exists in the source). -/
def intArith : ArithOp → Int → Int → Outcome Int
  | .add, l, r => .ok (l + r)
  | .sub, l, r => .ok (l - r)
  | .mul, l, r => .ok (l * r)
  | .div, l, r =>
      if r = 0 then .ub "integer division by zero (SIGFPE)"
      else .ok (Int.tdiv l r)

/-- `double op double` (exact `Rat` stands in for IEEE-754 `double`). -/
def ratArith : ArithOp → Rat → Rat → Rat
  | .add, l, r => l + r
  | .sub, l, r => l - r
  | .mul, l, r => l * r
  | .div, l, r => l / r
/-- The six comparison builtins share `APPLY_COMP_OP_TO_NUMS`. -/
inductive CompOp where
  | eq
  | ne
  | lt
  | gt
  | le
  | ge
  deriving Repr, DecidableEq

/-- The `#op` stringification of the comparison operator. -/
def CompOp.token : CompOp → String
  | .eq => "=="
  | .ne => "!="
  | .lt => "<"
  | .gt => ">"
  | .le => "<="
  | .ge => ">="

/-- The comparison on `Int`. -/
def intComp : CompOp → Int → Int → Bool
  | .eq, l, r => l = r
  | .ne, l, r => l ≠ r
  | .lt, l, r => l < r
  | .gt, l, r => l > r
  | .le, l, r => l ≤ r
  | .ge, l, r => l ≥ r

/-- The comparison on `Rat` (stand-in for `double`). -/
def ratComp : CompOp → Rat → Rat → Bool
  | .eq, l, r => l = r
  | .ne, l, r => l ≠ r
  | .lt, l, r => l < r
  | .gt, l, r => l > r
  | .le, l, r => l ≤ r
  | .ge, l, r => l ≥ r

/-- The Lisp-level name of each comparison builtin ("too few arguments"
messages use it). -/
def CompOp.lispName : CompOp → String
  | .eq => "="
  | .ne => "/="
  | .lt => "<"
  | .gt => ">"
  | .le => "<="
  | .ge => ">="

end MLisp

namespace MLisp.Gen1

/-- The builtin primitives of `main.cpp` (`FuncPtr` values installed by
`default_env`) that lie inside the modelled pure fragment.  The omitted
entries (`set`, `setq`, `defun`, `defmacro`, the `string*` comparisons,
conversions, `debug`, `type-of`, `concat`, `macroexpand` and all I/O
builtins) are not used by any claim. -/
inductive Builtin where
  | fn_quote
  | fn_list
  | fn_car
  | fn_cdr
  | fn_cons
  | fn_atom
  | fn_if
  | fn_eq_num
  | fn_ne_num
  | fn_lt_num
  | fn_gt_num
  | fn_le_num
  | fn_ge_num
  | fn_add_num
  | fn_sub_num
  | fn_mul_num
  | fn_div_num
  | fn_lambda
  deriving Repr, DecidableEq

/-- The value model of `main.cpp` (`ObjectKind` and the `Object` class
hierarchy).  `function` keeps the parameter names (`std::list` of `Symbol`)
and the body; `partFunc` is `PartiallyAppliedFunction` holding the function
and its stored argument chain; `funcPtr` is `FuncPtr` (identified by which
builtin it is); `partFuncPtr` is `PartiallyAppliedFuncPtr`;
`macroObj` is `Macro`. -/
inductive Obj where
  | list (hd : Obj) (tl : List Obj)
  | t
  | nil
  | integer (n : Int)
  | number (q : Rat)
  | string (s : String)
  | symbol (s : String)
  | function (ps : List String) (body : List Obj)
  | partFunc (ps : List String) (body : List Obj) (acc : List Obj)
  | macroObj (ps : List String) (body : List Obj)
  | funcPtr (b : Builtin)
  | partFuncPtr (b : Builtin) (acc : List Obj)
  deriving Repr

/-- `Object::is_atom` of `main.cpp`: every variant overrides it; `List`,
`Function`, `PartiallyAppliedFunction`, `FuncPtr`,
`PartiallyAppliedFuncPtr` and `Macro` return `false`, the rest `true`. -/
def Obj.is_atom : Obj → Bool
  | .list _ _ => false
  | .function _ _ => false
  | .partFunc _ _ _ => false
  | .macroObj _ _ => false
  | .funcPtr _ => false
  | .partFuncPtr _ _ => false
  | _ => true

mutual

/-- The `debug()` printers of `main.cpp`.  `std::to_string` on `double` is
abstracted by `toString` on `Rat`. -/
def Obj.debug : Obj → String
  | .list hd tl => "(" ++ debugSpaced hd tl ++ ")"
  | .t => "T"
  | .nil => "NIL"
  | .integer n => toString n
  | .number q => toString q
  | .string s => "\"" ++ s ++ "\""
  | .symbol s => s
  | .function ps body =>
      "FUNCTION (" ++ String.intercalate " " ps ++ ")" ++ debugPrefixed body
  | .partFunc ps body acc =>
      "FUNCTION (" ++ String.intercalate " " ps ++ ")" ++ debugPrefixed body
        ++ debugPrefixed acc
  | .macroObj ps body =>
      "MACRO (" ++ String.intercalate " " ps ++ ")" ++ debugPrefixed body
  | .funcPtr _ => "buildin function"
  | .partFuncPtr _ _ => "partially applied buildin function"
termination_by o => sizeOf o
decreasing_by all_goals (simp_wf; try omega)

/-- Space-separated `debug` of the cells of a list object. -/
def debugSpaced : Obj → List Obj → String
  | o, [] => o.debug
  | o, o2 :: rest => o.debug ++ " " ++ debugSpaced o2 rest
termination_by o l => sizeOf o + sizeOf l
decreasing_by all_goals (simp_wf; try omega)

/-- Each element's `debug` preceded by a space (function and macro bodies). -/
def debugPrefixed : List Obj → String
  | [] => ""
  | o :: rest => " " ++ o.debug ++ debugPrefixed rest
termination_by l => sizeOf l
decreasing_by all_goals (simp_wf; try omega)

end

/-- One `symtable`: the `std::map<std::string, shared_ptr<Object>>` of an
`Env`, as an association list. -/
abbrev Frame := List (String × Obj)

/-- An environment chain: head = the current `Env`'s `symtable`, tail = the
chain reachable through its `outer` pointer (`[]` once `outer == nullptr`). -/
abbrev Env := List Frame

/-- Lookup in one `symtable` (`std::map::at` succeeding or throwing). -/
def lookupSym : Frame → String → Option Obj
  | [], _ => none
  | (k, v) :: rest, s => if k = s then some v else lookupSym rest s

/-- `symtable[sym] = obj`: replace the binding if present, insert it
otherwise. -/
def updateSym : Frame → String → Obj → Frame
  | [], s, v => [(s, v)]
  | (k, w) :: rest, s, v =>
      if k = s then (k, v) :: rest else (k, w) :: updateSym rest s v

/-- `Env::get_obj` of `main.cpp` (lines 292-302): try the current
`symtable`; on `out_of_range` recurse into `outer`; when `outer` is null
the `EnvException` ("no such symbol exist") is thrown — here `none`, turned
into the exception message at the call sites. -/
def get_obj : Env → String → Option Obj
  | [], _ => none
  | tbl :: outer, s =>
      match lookupSym tbl s with
      | some v => some v
      | none => get_obj outer s

/-- `Env::set_obj`: writes into the current frame only. -/
def set_obj : Env → String → Obj → Env
  | [], s, v => [[(s, v)]]
  | tbl :: outer, s, v => updateSym tbl s v :: outer

/-- `List::append(shared_ptr<List>)` of `main.cpp` (lines 326-332): walk to
the last cell and set its `next` pointer, so the chain afterwards holds the
old cells followed by the appended chain.  The mutation happens in place on
the receiver object; every alias of the receiver observes the longer
chain. -/
def listAppend (xs ys : List Obj) : List Obj := xs ++ ys

/-- The parameter check loop of `fn_lambda`: every element of the parameter
list must be a `Symbol`; collect the names. -/
def symbolNames : List Obj → Option (List String)
  | [] => some []
  | .symbol s :: rest => (symbolNames rest).map (fun l => s :: l)
  | _ :: _ => none


/-- `APPLY_ARITH_OP_TO_NUMS(a1, a2, a3, op)` of `main.cpp` (lines
1401-1425): four numeric kind combinations; `Integer`/`Integer` stays
`Integer`, any `Number` operand makes the result `Number`; anything else
throws. -/
def applyArithOp (op : ArithOp) (a1 a2 : Obj) : Outcome Obj :=
  match a1, a2 with
  | .integer l, .integer r => (intArith op l r).map .integer
  | .integer l, .number r => .ok (.number (ratArith op (l : Rat) r))
  | .number l, .integer r => .ok (.number (ratArith op l (r : Rat)))
  | .number l, .number r => .ok (.number (ratArith op l r))
  | _, _ =>
      .exn (op.token ++ " cannot be applied to non-numeric objects: lhs is "
        ++ a1.debug ++ " and rhs is " ++ a2.debug)


/-- `APPLY_COMP_OP_TO_NUMS(a1, a2, op)` of `main.cpp` (lines 1375-1399). -/
def applyCompOp (op : CompOp) (a1 a2 : Obj) : Outcome Obj :=
  match a1, a2 with
  | .integer l, .integer r => .ok (if intComp op l r then .t else .nil)
  | .integer l, .number r => .ok (if ratComp op (l : Rat) r then .t else .nil)
  | .number l, .integer r => .ok (if ratComp op l (r : Rat) then .t else .nil)
  | .number l, .number r => .ok (if ratComp op l r then .t else .nil)
  | _, _ =>
      .exn (op.token ++ " cannot be applied to non-numeric objects: lhs is "
        ++ a1.debug ++ " and rhs is " ++ a2.debug)

/-- The kinds of value an interpreter step can produce: an object, the
temporary environment built by a parameter-binding loop, or a collected
list of evaluated objects. -/
inductive Val where
  | obj (o : Obj)
  | env (e : Env)
  | objs (l : List Obj)

/-- Step results. -/
abbrev Res := Outcome Val

/-- Lift an `Outcome Obj` into a step result. -/
def liftObj : Outcome Obj → Res
  | .ok v => .ok (.obj v)
  | .exn m => .exn m
  | .ub m => .ub m
  | .exited c => .exited c
  | .timeout => .timeout

/-- The unevaluated pairwise binding of `expand_macroObj` (main.cpp
1189-1194), as a pure function: `temp_env.set_obj(sym, arg)` over the
zipped lists. -/
def bindRaw (ps : List String) (args : List Obj) (temp : Env) : Env :=
  match ps, args with
  | [], _ => temp
  | _ :: _, [] => temp
  | p :: ps2, a :: args2 => bindRaw ps2 args2 (set_obj temp p a)

/-- Call descriptors: one constructor per function (or loop) of the
`main.cpp` evaluator that the model needs. -/
inductive Call where
  | eval (obj : Obj) (env : Env)
  | eval_list (hd : Obj) (tl : List Obj) (env : Env)
  | apply_func (ps : List String) (body : List Obj) (args : List Obj) (env : Env)
  | apply_part_func (ps : List String) (body : List Obj) (acc : List Obj)
      (args : List Obj) (env : Env)
  | apply_func_ptr (b : Builtin) (args : List Obj) (env : Env)
  | apply_part_func_ptr (b : Builtin) (acc : List Obj) (args : List Obj) (env : Env)
  | apply_macroObj (ps : List String) (body : List Obj) (args : List Obj) (env : Env)
  | expand_macroObj (ps : List String) (body : List Obj) (args : List Obj) (env : Env)
  | bind_args (ps : List String) (args : List Obj) (env : Env) (temp : Env)
  | eval_body (body : List Obj) (env : Env)
  | eval_each (exprs : List Obj) (acc : List Obj) (env : Env)
  | fn (b : Builtin) (args : List Obj) (env : Env)
  | fn_arith (op : ArithOp) (args : List Obj) (env : Env)
  | fn_comp (op : CompOp) (args : List Obj) (env : Env)
  | arith_loop (op : ArithOp) (rest : List Obj) (acc : Obj) (env : Env)

/-- The `main.cpp` evaluator.  Fuel bounds the C++ call depth and loop
count; each step hands `f` to its callees.  See the arm comments for the
source locations. -/
def run : Nat → Call → Res
  | 0, _ => .timeout
  | f+1, c =>
    match c with
    -- `eval` (main.cpp 1110-1126): self-evaluating kinds, lists, symbols;
    -- every other kind falls into the `default: exit(1)` arm.
    | .eval obj env =>
      match obj with
      | .t => .ok (.obj .t)
      | .nil => .ok (.obj .nil)
      | .integer n => .ok (.obj (.integer n))
      | .number q => .ok (.obj (.number q))
      | .string s => .ok (.obj (.string s))
      | .list hd tl => run f (.eval_list hd tl env)
      | .symbol s =>
        match get_obj env s with
        | some v => .ok (.obj v)
        | none => .exn ("no such symbol exist: " ++ s)
      | _ => .exited 1
    -- `eval_list` (main.cpp 1128-1168): symbol heads are looked up
    -- directly (and may be `FuncPtr`); other heads are evaluated, and that
    -- branch has no `FuncPtr` case.
    | .eval_list hd tl env =>
      match hd with
      | .symbol name =>
        match get_obj env name with
        | none => .exn ("no such symbol exist: " ++ name)
        | some obj =>
          match obj with
          | .funcPtr b => run f (.apply_func_ptr b tl env)
          | .function ps body => run f (.apply_func ps body tl env)
          | .partFuncPtr b acc => run f (.apply_part_func_ptr b acc tl env)
          | .partFunc ps body acc => run f (.apply_part_func ps body acc tl env)
          | .macroObj ps body => run f (.apply_macroObj ps body tl env)
          | _ => .exn "first symbol must be callable"
      | _ =>
        match run f (.eval hd env) with
        | .ok (.obj obj) =>
          match obj with
          | .function ps body => run f (.apply_func ps body tl env)
          | .partFunc ps body acc => run f (.apply_part_func ps body acc tl env)
          | .partFuncPtr b acc => run f (.apply_part_func_ptr b acc tl env)
          | .macroObj ps body => run f (.apply_macroObj ps body tl env)
          | _ => .exn "first object of list must be function or symbol"
        | r => r
    -- `apply_func` (main.cpp 1245-1279): collect the raw argument cells,
    -- compare the counts; more args than params throws, equal counts bind
    -- (evaluating each argument in the caller env) and run the body in the
    -- child env, fewer args return a `PartiallyAppliedFunction` holding
    -- the function and the raw argument chain without running anything.
    | .apply_func ps body args env =>
      if args.length > ps.length then
        .exn ("different number of argument to function: expect "
          ++ toString ps.length ++ ", but got " ++ toString args.length)
      else if args.length = ps.length then
        match run f (.bind_args ps args env env) with
        | .ok (.env temp) => run f (.eval_body body temp)
        | r => r
      else .ok (.obj (.partFunc ps body args))
    -- The binding loop of `apply_func` (main.cpp 1264-1269):
    -- `temp_env.set_obj(sym, eval(*args, env))`, walking the parameter
    -- list; it starts from `temp` = the copy `Env temp_env(env)`.
    | .bind_args ps args env temp =>
      match ps with
      | [] => .ok (.env temp)
      | p :: ps2 =>
        match args with
        | [] => .ub "apply_func: argument iterator advanced past the end"
        | a :: args2 =>
          match run f (.eval a env) with
          | .ok (.obj v) => run f (.bind_args ps2 args2 env (set_obj temp p v))
          | r => r
    -- The body loop of `apply_func` / `apply_macroObj` (main.cpp 1274-1277,
    -- 1210-1213): `result` starts as `NIL` and is overwritten by each
    -- expression's value; the last one is returned.
    | .eval_body body env =>
      match body with
      | [] => .ok (.obj .nil)
      | b :: rest =>
        match run f (.eval b env) with
        | .ok (.obj v) =>
          match rest with
          | [] => .ok (.obj v)
          | _ :: _ => run f (.eval_body rest env)
        | r => r
    -- `apply_part_func` (main.cpp 1235-1243): fetch the stored argument
    -- chain, `append` the new cells onto it in place, re-apply.  When the
    -- stored chain is the null pointer (a partial application created from
    -- zero arguments) the `append` call dereferences null.
    | .apply_part_func ps body acc args env =>
      match acc with
      | [] => .ub "apply_part_func: append called through a null List pointer"
      | _ :: _ => run f (.apply_func ps body (listAppend acc args) env)
    -- `apply_part_func_ptr` (main.cpp 1217-1225): same shape.
    | .apply_part_func_ptr b acc args env =>
      match acc with
      | [] => .ub "apply_part_func_ptr: append called through a null List pointer"
      | _ :: _ => run f (.apply_func_ptr b (listAppend acc args) env)
    -- `apply_func_ptr` (main.cpp 1227-1233): invoke the builtin.
    | .apply_func_ptr b args env => run f (.fn b args env)
    -- `expand_macroObj` (main.cpp 1170-1202): collect the raw arguments,
    -- require the exact parameter count, bind them unevaluated into the
    -- child env, then evaluate every body expression there and collect all
    -- the results.
    | .expand_macroObj ps body args env =>
      if args.length = ps.length then
        run f (.eval_each body [] (bindRaw ps args env))
      else
        .exn ("different number of argument to macro: expect "
          ++ toString ps.length ++ ", but got " ++ toString args.length)
    -- `apply_macroObj` (main.cpp 1204-1215): evaluate each expansion in the
    -- caller env; the last value (or `NIL`) is the result.
    | .apply_macroObj ps body args env =>
      match run f (.expand_macroObj ps body args env) with
      | .ok (.objs expanded) => run f (.eval_body expanded env)
      | r => r
    -- Evaluate a list of expressions in order, collecting every value
    -- (the `fn_list` loop, main.cpp 1292-1306, and the body collection of
    -- `expand_macroObj`, main.cpp 1197-1201).
    | .eval_each exprs acc env =>
      match exprs with
      | [] => .ok (.objs acc.reverse)
      | e :: rest =>
        match run f (.eval e env) with
        | .ok (.obj v) => run f (.eval_each rest (v :: acc) env)
        | r => r
    -- The builtin bodies.
    | .fn b args env =>
      match b with
      -- `fn_quote` (main.cpp 1285-1290): exactly one raw argument.
      | .fn_quote =>
        match args with
        | [] => .exn "too few arguments for quote"
        | a1 :: rest =>
          match rest with
          | [] => .ok (.obj a1)
          | _ :: _ => .exn "too many arguments for quote"
      -- `fn_list` (main.cpp 1292-1306): at least one argument; evaluate
      -- all of them and chain the values.
      | .fn_list =>
        match args with
        | [] => .exn "too few arguments for list"
        | a1 :: rest =>
          match run f (.eval a1 env) with
          | .ok (.obj v1) =>
            match run f (.eval_each rest [] env) with
            | .ok (.objs vs) => .ok (.obj (.list v1 vs))
            | r => r
          | r => r
      -- `fn_car` (main.cpp 1308-1320).
      | .fn_car =>
        match args with
        | [] => .exn "too few arguments for car"
        | _ :: _ :: _ => .exn "too many arguments for car"
        | [a1] =>
          match run f (.eval a1 env) with
          | .ok (.obj v) =>
            match v with
            | .list hd _ => .ok (.obj hd)
            | .nil => .ok (.obj .nil)
            | _ => .exn (v.debug ++ " is not a list")
          | r => r
      -- `fn_cdr` (main.cpp 1322-1338).
      | .fn_cdr =>
        match args with
        | [] => .exn "too few arguments for cdr"
        | _ :: _ :: _ => .exn "too many arguments for cdr"
        | [a1] =>
          match run f (.eval a1 env) with
          | .ok (.obj v) =>
            match v with
            | .list _ tl =>
              match tl with
              | [] => .ok (.obj .nil)
              | t2 :: rest2 => .ok (.obj (.list t2 rest2))
            | .nil => .ok (.obj .nil)
            | _ => .exn (v.debug ++ " is not a list")
          | r => r
      -- `fn_cons` (main.cpp 1340-1351): exactly two evaluated arguments; a
      -- `List` second argument is prepended onto, anything else (including
      -- `NIL`) becomes the second cell of a two-cell list.
      | .fn_cons =>
        match args with
        | [] => .exn "too few arguments for cons"
        | [_] => .exn "too few arguments for cons"
        | _ :: _ :: _ :: _ => .exn "too many arguments for cons"
        | [a1, a2] =>
          match run f (.eval a1 env) with
          | .ok (.obj v1) =>
            match run f (.eval a2 env) with
            | .ok (.obj v2) =>
              match v2 with
              | .list hd tl => .ok (.obj (.list v1 (hd :: tl)))
              | _ => .ok (.obj (.list v1 [v2]))
            | r => r
          | r => r
      -- `fn_atom` (main.cpp 1353-1362).
      | .fn_atom =>
        match args with
        | [] => .exn "too few arguments for atom"
        | _ :: _ :: _ => .exn "too many arguments for atom"
        | [a1] =>
          match run f (.eval a1 env) with
          | .ok (.obj v) => .ok (.obj (if v.is_atom then .t else .nil))
          | r => r
      -- `fn_if` (main.cpp 1364-1373): three raw arguments; evaluate the
      -- condition, then exactly one branch.
      | .fn_if =>
        match args with
        | [] => .exn "too few arguments for if"
        | [_] => .exn "too few arguments for if"
        | [_, _] => .exn "too few arguments for if"
        | _ :: _ :: _ :: _ :: _ => .exn "too many arguments for if"
        | [a1, a2, a3] =>
          match run f (.eval a1 env) with
          | .ok (.obj v) =>
            match v with
            | .nil => run f (.eval a3 env)
            | _ => run f (.eval a2 env)
          | r => r
      | .fn_eq_num => run f (.fn_comp .eq args env)
      | .fn_ne_num => run f (.fn_comp .ne args env)
      | .fn_lt_num => run f (.fn_comp .lt args env)
      | .fn_gt_num => run f (.fn_comp .gt args env)
      | .fn_le_num => run f (.fn_comp .le args env)
      | .fn_ge_num => run f (.fn_comp .ge args env)
      | .fn_add_num => run f (.fn_arith .add args env)
      | .fn_sub_num => run f (.fn_arith .sub args env)
      | .fn_mul_num => run f (.fn_arith .mul args env)
      | .fn_div_num => run f (.fn_arith .div args env)
      -- `fn_lambda` (main.cpp 1692-1725): first raw argument is the
      -- parameter form (a list of symbols, or `NIL` for a nullary
      -- function); the remaining cells are the body.
      | .fn_lambda =>
        match args with
        | [] => .exn "too few arguments for lambda"
        | a1 :: rest =>
          match a1 with
          | .list hd tl =>
            match symbolNames (hd :: tl) with
            | some names => .ok (.obj (.function names rest))
            | none => .exn "list elements of lambda must be symbol"
          | .nil => .ok (.obj (.function [] rest))
          | _ => .exn "first argument of lambda must be list"
    -- `fn_eq_num` .. `fn_ge_num` (main.cpp 1427-1461): exactly two
    -- evaluated arguments fed to `APPLY_COMP_OP_TO_NUMS`.
    | .fn_comp op args env =>
      match args with
      | [] => .exn ("too few arguments for " ++ op.lispName)
      | [_] => .exn ("too few arguments for " ++ op.lispName)
      | _ :: _ :: _ :: _ => .exn ("too many arguments for " ++ op.lispName)
      | [a1, a2] =>
        match run f (.eval a1 env) with
        | .ok (.obj v1) =>
          match run f (.eval a2 env) with
          | .ok (.obj v2) => liftObj (applyCompOp op v1 v2)
          | r => r
        | r => r
    -- `fn_add_num` .. `fn_div_num` (main.cpp 1463-1517): evaluate the
    -- first two arguments, apply the macro to `(a1, a2)`, then loop over
    -- the remaining cells with `APPLY_ARITH_OP_TO_NUMS(a, acc, acc, op)` —
    -- note the freshly evaluated operand is the LEFT operand there.
    | .fn_arith op args env =>
      match args with
      | [] => .exn ("too few arguments for " ++ op.lispName)
      | [_] => .exn ("too few arguments for " ++ op.lispName)
      | a1 :: a2 :: rest =>
        match run f (.eval a1 env) with
        | .ok (.obj v1) =>
          match run f (.eval a2 env) with
          | .ok (.obj v2) =>
            match applyArithOp op v1 v2 with
            | .ok acc0 => run f (.arith_loop op rest acc0 env)
            | .exn m => .exn m
            | .ub m => .ub m
            | .exited c2 => .exited c2
            | .timeout => .timeout
          | r => r
        | r => r
    | .arith_loop op rest acc env =>
      match rest with
      | [] => .ok (.obj acc)
      | a :: rest2 =>
        match run f (.eval a env) with
        | .ok (.obj v) =>
          match applyArithOp op v acc with
          | .ok acc2 => run f (.arith_loop op rest2 acc2 env)
          | .exn m => .exn m
          | .ub m => .ub m
          | .exited c2 => .exited c2
          | .timeout => .timeout
        | r => r

/-- `eval(object, env)` entry point. -/
def eval (f : Nat) (obj : Obj) (env : Env) : Res := run f (.eval obj env)

/-- `eval_list(list, env)` entry point. -/
def eval_list (f : Nat) (hd : Obj) (tl : List Obj) (env : Env) : Res :=
  run f (.eval_list hd tl env)

/-- `apply_func(func, args, env)` entry point. -/
def apply_func (f : Nat) (ps : List String) (body args : List Obj) (env : Env) : Res :=
  run f (.apply_func ps body args env)

/-- `apply_part_func(func, args, env)` entry point; `acc` is the stored
pending-argument chain of the `PartiallyAppliedFunction`. -/
def apply_part_func (f : Nat) (ps : List String) (body acc args : List Obj)
    (env : Env) : Res :=
  run f (.apply_part_func ps body acc args env)

/-- The argument-binding loop of `apply_func`. -/
def bind_args (f : Nat) (ps : List String) (args : List Obj) (env temp : Env) : Res :=
  run f (.bind_args ps args env temp)

/-- The body loop of `apply_func`. -/
def eval_body (f : Nat) (body : List Obj) (env : Env) : Res :=
  run f (.eval_body body env)

/-- `fn_add_num(args, env)`. -/
def fn_add_num (f : Nat) (args : List Obj) (env : Env) : Res :=
  run f (.fn .fn_add_num args env)

/-- `fn_sub_num(args, env)`. -/
def fn_sub_num (f : Nat) (args : List Obj) (env : Env) : Res :=
  run f (.fn .fn_sub_num args env)

/-- `fn_mul_num(args, env)`. -/
def fn_mul_num (f : Nat) (args : List Obj) (env : Env) : Res :=
  run f (.fn .fn_mul_num args env)

/-- `fn_div_num(args, env)`. -/
def fn_div_num (f : Nat) (args : List Obj) (env : Env) : Res :=
  run f (.fn .fn_div_num args env)

end MLisp.Gen1

namespace MLisp.Gen2

/-! ## The modular generation (`src/lexer.cpp`, `src/object.cpp`,
`src/env.cpp`, `src/eval.cpp`)

The parser (`src/parser.cpp`) is not needed by any claim and is not
modelled. -/

/-- The builtins that `default_env` (env.cpp 29-46) installs: the six
numeric comparisons, the four arithmetic operators, `list`, `lambda`
(installed under the misspelt name "labmda"), `macro` and `macroexpand`. -/
inductive Builtin where
  | fn_eq_num
  | fn_ne_num
  | fn_lt_num
  | fn_gt_num
  | fn_le_num
  | fn_ge_num
  | fn_add_num
  | fn_sub_num
  | fn_mul_num
  | fn_div_num
  | fn_list
  | fn_lambda
  | fn_macroObj
  | fn_macroexpand
  deriving Repr, DecidableEq

/-- The value model of the modular generation (`object.hpp`): compared with
`main.cpp` it adds the reader wrappers `Quoted`, `BackQuoted`, `Comma` and
`CommaAtmark`, and a `FunctionObject`/`MacroObject` stores its parameter
form as a whole object (`NILObject`, or a `ListObject` of symbols). -/
inductive Obj where
  | list (hd : Obj) (tl : List Obj)
  | t
  | nil
  | integer (n : Int)
  | number (q : Rat)
  | string (s : String)
  | symbol (s : String)
  | function (params : Obj) (body : List Obj)
  | partFunc (params : Obj) (body : List Obj) (acc : List Obj)
  | macroObj (params : Obj) (body : List Obj)
  | quoted (o : Obj)
  | backQuoted (o : Obj)
  | comma (o : Obj)
  | commaAtmark (o : Obj)
  | funcPtr (b : Builtin)
  | partFuncPtr (b : Builtin) (acc : List Obj)
  deriving Repr

/-- One `symtable` of this generation's `Env`. -/
abbrev Frame := List (String × Obj)

/-- The environment chain, head = the current `Env` object's `symtable`,
tail = the frames reachable through `outer`. -/
abbrev Env := List Frame

/-- Lookup in one `symtable`. -/
def lookupSym : Frame → String → Option Obj
  | [], _ => none
  | (k, v) :: rest, s => if k = s then some v else lookupSym rest s

/-- `symtable[sym] = obj`. -/
def updateSym : Frame → String → Obj → Frame
  | [], s, v => [(s, v)]
  | (k, w) :: rest, s, v =>
      if k = s then (k, v) :: rest else (k, w) :: updateSym rest s v

/-- `Env::get_obj` of env.cpp (lines 13-23), exactly as written: try the
current `symtable`; on `out_of_range`, if `outer == nullptr` return a fresh
`NILObject`, otherwise throw `EnvException("no such symbol exist: …")`.
It never recurses into `outer`. -/
def get_obj : Env → String → Outcome Obj
  | [], _ => .ub "get_obj called through a null Env pointer"
  | tbl :: outer, s =>
      match lookupSym tbl s with
      | some v => .ok v
      | none =>
        match outer with
        | [] => .ok .nil
        | _ :: _ => .exn ("no such symbol exist: " ++ s)

/-- `Env::set_obj` (env.cpp 25-27): writes into the current frame. -/
def set_obj : Env → String → Obj → Env
  | [], s, v => [[(s, v)]]
  | tbl :: outer, s, v => updateSym tbl s v :: outer

/-- `ListObject::append(shared_ptr<ListObject>)` of object.cpp (lines
49-52): `last()->__next = list`, so the receiver chain afterwards holds its
old cells followed by the appended chain, in place: every alias of the
receiver observes the longer chain. -/
def listAppend (xs ys : List Obj) : List Obj := xs ++ ys

/-- `take_args` (eval.cpp 68-97) for `num ≥ 0`: take exactly `num` cells
(throwing "too few"), and with `restrict` set throw "too many" when cells
remain.  On success the returned vector has exactly `num` elements. -/
def takeLoop (name : String) (args : List Obj) (n : Nat) (restrict : Bool) :
    Outcome (List Obj) :=
  match n, args with
  | 0, rest =>
    match restrict, rest with
    | true, _ :: _ => .exn ("too many arguments for " ++ name)
    | _, _ => .ok []
  | _+1, [] => .exn ("too few arguments for " ++ name)
  | m+1, a :: rest => (takeLoop name rest m restrict).map (fun l => a :: l)

/-- `take_args` (eval.cpp 68-97): with `num < 0` take every cell. -/
def take_args (name : String) (args : List Obj) (num : Int) (restrict : Bool) :
    Outcome (List Obj) :=
  if num < 0 then .ok args
  else takeLoop name args num.toNat restrict

/-- The symbol check loop of `fn_lambda` / `fn_macroObj` (eval.cpp 403-409,
423-429). -/
def allSymbols : List Obj → Bool
  | [] => true
  | .symbol _ :: rest => allSymbols rest
  | _ :: _ => false

/-- `fn_lambda` (eval.cpp 398-416).  It takes exactly one argument into the
vector `a` (`take_args(…, 1, false)`), so `a` has one element; the `NIL`
branch then reads `a[1]`, one past the end of the vector — undefined
behaviour.  The `env` parameter of the C++ function is unused. -/
def fn_lambda (args : List Obj) : Outcome Obj :=
  match take_args "lambda" args 1 false with
  | .ok a =>
    match a with
    | [] => .ub "fn_lambda: a[0] subscript on an empty vector"
    | a0 :: arest =>
      match a0 with
      | .list phd ptl =>
          if allSymbols (phd :: ptl) then .ok (.function (.list phd ptl) args.tail)
          else .exn "lambda parametor must be symbol"
      | .nil =>
        match arest with
        | a1 :: _ => .ok (.function a1 args.tail)
        | [] => .ub "fn_lambda: a[1] subscript out of bounds of a one-element vector"
      | _ => .exn "second argument of lambda must be list"
  | .exn m => .exn m
  | .ub m => .ub m
  | .exited k => .exited k
  | .timeout => .timeout

/-- `fn_macroObj` (eval.cpp 418-436): same shape as `fn_lambda`, including the
out-of-bounds `a[1]` in the `NIL` branch. -/
def fn_macroObj (args : List Obj) : Outcome Obj :=
  match take_args "macro" args 1 false with
  | .ok a =>
    match a with
    | [] => .ub "fn_macroObj: a[0] subscript on an empty vector"
    | a0 :: arest =>
      match a0 with
      | .list phd ptl =>
          if allSymbols (phd :: ptl) then .ok (.macroObj (.list phd ptl) args.tail)
          else .exn "macro parametor must be symbol"
      | .nil =>
        match arest with
        | a1 :: _ => .ok (.macroObj a1 args.tail)
        | [] => .ub "fn_macroObj: a[1] subscript out of bounds of a one-element vector"
      | _ => .exn "second argument of macro must be list"
  | .exn m => .exn m
  | .ub m => .ub m
  | .exited k => .exited k
  | .timeout => .timeout

/-- `APPLY_ARITH_OP_TO_NUMS` of eval.cpp (lines 37-61); textually the same
macro as in `main.cpp`. -/
def applyArithOp (op : ArithOp) (a1 a2 : Obj) : Outcome Obj :=
  match a1, a2 with
  | .integer l, .integer r => (intArith op l r).map .integer
  | .integer l, .number r => .ok (.number (ratArith op (l : Rat) r))
  | .number l, .integer r => .ok (.number (ratArith op l (r : Rat)))
  | .number l, .number r => .ok (.number (ratArith op l r))
  | _, _ =>
      .exn (op.token ++ " cannot be applied to non-numeric objects")

/-- `APPLY_COMP_OP_TO_NUMS` of eval.cpp (lines 9-35). -/
def applyCompOp (op : CompOp) (a1 a2 : Obj) : Outcome Obj :=
  match a1, a2 with
  | .integer l, .integer r => .ok (if intComp op l r then .t else .nil)
  | .integer l, .number r => .ok (if ratComp op (l : Rat) r then .t else .nil)
  | .number l, .integer r => .ok (if ratComp op l (r : Rat) then .t else .nil)
  | .number l, .number r => .ok (if ratComp op l r then .t else .nil)
  | _, _ =>
      .exn (op.token ++ " cannot be applied to non-numeric objects")

/-- The loop of `fn_add_num` … `fn_div_num` (eval.cpp 332-382) after
`eval_args` produced the value vector: `APPLY_ARITH_OP_TO_NUMS(*it, acc,
acc, op)` — the next operand is the LEFT operand of the macro. -/
def arithFold (op : ArithOp) : List Obj → Obj → Outcome Obj
  | [], acc => .ok acc
  | a :: rest, acc =>
    match applyArithOp op a acc with
    | .ok acc2 => arithFold op rest acc2
    | r => r

/-- The kinds of value a step can produce. -/
inductive Val where
  | obj (o : Obj)
  | env (e : Env)
  | objs (l : List Obj)

/-- Step results. -/
abbrev Res := Outcome Val

/-- Lift an `Outcome Obj` into a step result. -/
def liftObj : Outcome Obj → Res
  | .ok v => .ok (.obj v)
  | .exn m => .exn m
  | .ub m => .ub m
  | .exited c => .exited c
  | .timeout => .timeout

/-- Call descriptors for the eval.cpp evaluator. -/
inductive Call where
  | eval (obj : Obj) (env : Env)
  | eval_list (hd : Obj) (tl : List Obj) (env : Env)
  | apply_func (params : Obj) (body : List Obj) (args : List Obj) (env : Env)
  | apply_func_ptr (b : Builtin) (args : List Obj) (env : Env)
  | apply_macroObj (params : Obj) (body : List Obj) (args : List Obj) (env : Env)
  | expand_macroObj (params : Obj) (body : List Obj) (args : List Obj) (env : Env)
  | bind_loop (ps : List Obj) (args : List Obj) (temp : Env)
  | body_loop (body : List Obj) (env : Env)
  | eval_body (body : List Obj) (env : Env)
  | eval_each (exprs : List Obj) (acc : List Obj) (env : Env)
  | eval_args (name : String) (args : List Obj) (num : Int) (restrict : Bool) (env : Env)
  | eval_args_loop (name : String) (args : List Obj) (n : Nat) (restrict : Bool)
      (acc : List Obj) (env : Env)
  | fn (b : Builtin) (args : List Obj) (env : Env)
  | fn_arith (op : ArithOp) (args : List Obj) (env : Env)
  | fn_comp (op : CompOp) (args : List Obj) (env : Env)

/-- The eval.cpp evaluator, with the same fuel convention as `Gen1.run`. -/
def run : Nat → Call → Res
  | 0, _ => .timeout
  | f+1, c =>
    match c with
    -- `eval` (eval.cpp 134-159): lists become combinations; `T`, `NIL`,
    -- numbers, strings, functions, macros and the builtin kinds
    -- self-evaluate; symbols are looked up; `Quoted` and `BackQuoted`
    -- return their payload unchanged; `Comma`/`CommaAtmark` throw.
    | .eval obj env =>
      match obj with
      | .list hd tl => run f (.eval_list hd tl env)
      | .t => .ok (.obj .t)
      | .nil => .ok (.obj .nil)
      | .integer n => .ok (.obj (.integer n))
      | .number q => .ok (.obj (.number q))
      | .string s => .ok (.obj (.string s))
      | .function ps body => .ok (.obj (.function ps body))
      | .partFunc ps body acc => .ok (.obj (.partFunc ps body acc))
      | .macroObj ps body => .ok (.obj (.macroObj ps body))
      | .funcPtr b => .ok (.obj (.funcPtr b))
      | .partFuncPtr b acc => .ok (.obj (.partFuncPtr b acc))
      | .symbol s => liftObj (get_obj env s)
      | .quoted o => .ok (.obj o)
      | .backQuoted o => .ok (.obj o)
      | .comma _ => .exn "comma is illegal outside of backquote"
      | .commaAtmark _ => .exn "comma is illegal outside of backquote"
    -- `eval_list` (eval.cpp 161-189): the head is always evaluated; a
    -- PartiallyAppliedFunction / PartiallyAppliedFuncPtr head appends the
    -- argument cells onto its stored chain in place before re-applying.
    | .eval_list hd tl env =>
      match run f (.eval hd env) with
      | .ok (.obj first) =>
        match first with
        | .function ps body => run f (.apply_func ps body tl env)
        | .partFunc ps body acc =>
          match tl with
          | [] => run f (.apply_func ps body acc env)
          | _ :: _ =>
            match acc with
            | [] => .ub "eval_list: append called through a null List pointer"
            | _ :: _ => run f (.apply_func ps body (listAppend acc tl) env)
        | .funcPtr b => run f (.apply_func_ptr b tl env)
        | .partFuncPtr b acc =>
          match tl with
          | [] => run f (.apply_func_ptr b acc env)
          | _ :: _ =>
            match acc with
            | [] => .ub "eval_list: append called through a null List pointer"
            | _ :: _ => run f (.apply_func_ptr b (listAppend acc tl) env)
        | .macroObj ps body => run f (.apply_macroObj ps body tl env)
        | _ => .exn "first element of list must be evaluated to callable"
      | r => r
    -- `apply_func` (eval.cpp 191-235).  Both branches begin by calling
    -- `args->kind()`; `args` is the raw `shared_ptr<ListObject>` tail of
    -- the combination, which is null for a zero-argument call — undefined
    -- behaviour.  A non-null `ListObject` has kind `List`, never `NIL`, so
    -- with `NIL` params any non-empty argument list throws the arity
    -- error, and with a parameter list the code goes straight to the
    -- binding loop with no argument-count check at all.
    | .apply_func params body args env =>
      match params with
      | .nil =>
        match args with
        | [] => .ub "apply_func: kind() called through a null args pointer"
        | _ :: _ =>
            .exn ("invalid number of argument for function: expected 0, but got "
              ++ toString args.length)
      | .list phd ptl =>
        match args with
        | [] => .ub "apply_func: kind() called through a null args pointer"
        | _ :: _ =>
          match run f (.bind_loop (phd :: ptl) args env) with
          | .ok (.env temp) => run f (.body_loop body temp)
          | r => r
      | _ => .ub "apply_func: params cast to ListObject is invalid"
    -- The binding loop of `apply_func` (eval.cpp 220-225):
    -- `temp_env.set_obj(symbol, arg->value())` — the RAW argument
    -- expression is bound; nothing is evaluated.  When the argument chain
    -- is shorter than the parameter list, `arg->value()` dereferences
    -- null.
    | .bind_loop ps args temp =>
      match ps with
      | [] => .ok (.env temp)
      | p :: ps2 =>
        match p with
        | .symbol s =>
          match args with
          | [] => .ub "apply_func: value() called through a null arg pointer"
          | a :: args2 => run f (.bind_loop ps2 args2 (set_obj temp s a))
        | _ => .ub "apply_func: param cast to SymbolObject is invalid"
    -- The body loop of `apply_func` (eval.cpp 199-202 and 228-231):
    -- `while (body != nullptr) { result = eval(body->value(), env); }` —
    -- `body` is never advanced, so a non-empty body is re-evaluated
    -- forever; only an empty body returns (`NIL`).
    | .body_loop body env =>
      match body with
      | [] => .ok (.obj .nil)
      | b :: _ =>
        match run f (.eval b env) with
        | .ok (.obj _) => run f (.body_loop body env)
        | r => r
    -- `apply_func_ptr` (eval.cpp 237-244).
    | .apply_func_ptr b args env => run f (.fn b args env)
    -- `apply_macroObj` (eval.cpp 246-252).
    | .apply_macroObj params body args env =>
      match run f (.expand_macroObj params body args env) with
      | .ok (.obj ex) => run f (.eval ex env)
      | r => r
    -- `expand_macroObj` (eval.cpp 254-300): same null `args->kind()` issue
    -- and the same unevaluated binding loop as `apply_func`; its body loop
    -- (291-297) does advance and returns the last value.
    | .expand_macroObj params body args env =>
      match params with
      | .nil =>
        match args with
        | [] => .ub "expand_macroObj: kind() called through a null args pointer"
        | _ :: _ =>
            .exn ("invalid number of argument for macro: expected 0, but got "
              ++ toString args.length)
      | .list phd ptl =>
        match args with
        | [] => .ub "expand_macroObj: kind() called through a null args pointer"
        | _ :: _ =>
          match run f (.bind_loop (phd :: ptl) args env) with
          | .ok (.env temp) => run f (.eval_body body temp)
          | r => r
      | _ => .ub "expand_macroObj: params cast to ListObject is invalid"
    -- The advancing body loop of `expand_macroObj`: `result` starts as `NIL`,
    -- each expression's value overwrites it, the last one is returned.
    | .eval_body body env =>
      match body with
      | [] => .ok (.obj .nil)
      | b :: rest =>
        match run f (.eval b env) with
        | .ok (.obj v) =>
          match rest with
          | [] => .ok (.obj v)
          | _ :: _ => run f (.eval_body rest env)
        | r => r
    -- Evaluate every cell in order, collecting the values (`eval_args`
    -- with `num < 0`, eval.cpp 109-117, and `fn_list`, eval.cpp 384-396).
    | .eval_each exprs acc env =>
      match exprs with
      | [] => .ok (.objs acc.reverse)
      | e :: rest =>
        match run f (.eval e env) with
        | .ok (.obj v) => run f (.eval_each rest (v :: acc) env)
        | r => r
    -- `eval_args` (eval.cpp 102-132).
    | .eval_args name args num restrict env =>
      if num < 0 then run f (.eval_each args [] env)
      else run f (.eval_args_loop name args num.toNat restrict [] env)
    | .eval_args_loop name args n restrict acc env =>
      match n with
      | 0 =>
        match restrict, args with
        | true, _ :: _ => .exn ("too many arguments for " ++ name)
        | _, _ => .ok (.objs acc.reverse)
      | m+1 =>
        match args with
        | [] => .exn ("too few arguments for " ++ name)
        | a :: rest =>
          match run f (.eval a env) with
          | .ok (.obj v) => run f (.eval_args_loop name rest m restrict (v :: acc) env)
          | r => r
    -- The builtin bodies (dispatch of the `FuncPtrObject`s installed by
    -- `default_env`).
    | .fn b args env =>
      match b with
      | .fn_eq_num => run f (.fn_comp .eq args env)
      | .fn_ne_num => run f (.fn_comp .ne args env)
      | .fn_lt_num => run f (.fn_comp .lt args env)
      | .fn_gt_num => run f (.fn_comp .gt args env)
      | .fn_le_num => run f (.fn_comp .le args env)
      | .fn_ge_num => run f (.fn_comp .ge args env)
      | .fn_add_num => run f (.fn_arith .add args env)
      | .fn_sub_num => run f (.fn_arith .sub args env)
      | .fn_mul_num => run f (.fn_arith .mul args env)
      | .fn_div_num => run f (.fn_arith .div args env)
      -- `fn_list` (eval.cpp 384-396).
      | .fn_list =>
        match run f (.eval_each args [] env) with
        | .ok (.objs []) => .ok (.obj .nil)
        | .ok (.objs (v :: vs)) => .ok (.obj (.list v vs))
        | r => r
      | .fn_lambda => liftObj (fn_lambda args)
      | .fn_macroObj => liftObj (fn_macroObj args)
      -- `fn_macroexpand` (eval.cpp 438-452).
      | .fn_macroexpand =>
        match run f (.eval_args "macro" args 1 true env) with
        | .ok (.objs l) =>
          match l with
          | [a0] =>
            match a0 with
            | .list lhd ltl =>
              match run f (.eval lhd env) with
              | .ok (.obj first) =>
                match first with
                | .macroObj ps body => run f (.expand_macroObj ps body ltl env)
                | _ => .exn "first element of list must be evaluated to macro"
              | r => r
            | _ => .exn "first argument of macroexpand must be evaluated to list"
          | _ => .ub "model invariant: eval_args(1) returned a different shape"
        | r => r
    -- `fn_eq_num` … `fn_ge_num` (eval.cpp 302-330).
    | .fn_comp op args env =>
      match run f (.eval_args op.lispName args 2 true env) with
      | .ok (.objs l) =>
        match l with
        | [a1, a2] => liftObj (applyCompOp op a1 a2)
        | _ => .ub "model invariant: eval_args(2) returned a different shape"
      | r => r
    -- `fn_add_num` … `fn_div_num` (eval.cpp 332-382): evaluate the whole
    -- argument list, require at least two values, seed the accumulator
    -- with `a[0] op a[1]` and fold the rest with the swapped macro call.
    | .fn_arith op args env =>
      match run f (.eval_args op.lispName args (-1) true env) with
      | .ok (.objs vals) =>
        match vals with
        | v0 :: v1 :: rest =>
          match applyArithOp op v0 v1 with
          | .ok acc0 => liftObj (arithFold op rest acc0)
          | .exn m => .exn m
          | .ub m => .ub m
          | .exited k => .exited k
          | .timeout => .timeout
        | _ => .exn ("too few arguments for " ++ op.lispName)
      | r => r

/-- `eval(obj, env)` entry point. -/
def eval (f : Nat) (obj : Obj) (env : Env) : Res := run f (.eval obj env)

/-- `eval_list(list, env)` entry point. -/
def eval_list (f : Nat) (hd : Obj) (tl : List Obj) (env : Env) : Res :=
  run f (.eval_list hd tl env)

/-- `apply_func(func, args, env)` entry point. -/
def apply_func (f : Nat) (params : Obj) (body args : List Obj) (env : Env) : Res :=
  run f (.apply_func params body args env)

/-- The (unevaluated) parameter-binding loop of `apply_func`. -/
def bind_loop (f : Nat) (ps args : List Obj) (temp : Env) : Res :=
  run f (.bind_loop ps args temp)

/-- The non-advancing body loop of `apply_func`. -/
def body_loop (f : Nat) (body : List Obj) (env : Env) : Res :=
  run f (.body_loop body env)

/-- `fn_div_num(args, env)`. -/
def fn_div_num (f : Nat) (args : List Obj) (env : Env) : Res :=
  run f (.fn .fn_div_num args env)

/-- `fn_sub_num(args, env)`. -/
def fn_sub_num (f : Nat) (args : List Obj) (env : Env) : Res :=
  run f (.fn .fn_sub_num args env)

/-! ### The lexer (`src/lexer.cpp`) -/

/-- The token model (`token.hpp`).  `Number` carries its lexeme: the value
`std::stod` parses from it is host floating point and is not needed by any
claim. -/
inductive Token where
  | lparenTok
  | rparenTok
  | quoteTok
  | backQuoteTok
  | commaTok
  | atmarkTok
  | integerTok (n : Int)
  | numberTok (lexeme : String)
  | stringTok (s : String)
  | identifierTok (s : String)
  deriving Repr, DecidableEq

/-- C `isspace` in the C locale. -/
def isSpaceChar (c : Char) : Bool :=
  c = ' ' || c = '\t' || c = '\n' || c = '\x0b' || c = '\x0c' || c = '\r'

/-- `is_ident_head_elem` (lexer.cpp 14-18). -/
def is_ident_head_elem (c : Char) : Bool :=
  c.isAlpha || c = '+' || c = '-' || c = '*' || c = '/' ||
    c = '=' || c = '<' || c = '>'

/-- `is_ident_tail_elem` (lexer.cpp 20-22). -/
def is_ident_tail_elem (c : Char) : Bool :=
  c.isDigit || is_ident_head_elem c

/-- `std::stoi` on a digit run. -/
def natOfDigits (cs : List Char) : Nat :=
  cs.foldl (fun acc c => acc * 10 + (c.toNat - 48)) 0

/-- `skip_whitespaces` (lexer.cpp 24-26): `while (it != last &&
isspace(*it)) it++` — the new position is the end of the maximal
whitespace run.  Entering with the iterator already past `last` compares
`it != last` (true) and then dereferences past the end: undefined
behaviour. -/
def skip_whitespaces (s : List Char) (pos : Nat) : Outcome Nat :=
  if pos ≤ s.length then .ok (pos + ((s.drop pos).takeWhile isSpaceChar).length)
  else .ub "lexer: iterator dereferenced past the end of the input"

/-- `token` (lexer.cpp 28-84).  Each scanning loop (`while (rit != last &&
pred(*rit)) rit++`) is the maximal run of matching characters.  In the
string branch (lines 67-72) the lexer scans from the character after the
opening quote to the next `"` or to `last`; it then unconditionally sets
`it = rit + 1`, so an unterminated string produces a `StringToken` holding
the rest of the input and leaves the iterator ONE PAST `last`. -/
def token (s : List Char) (pos : Nat) : Outcome (Token × Nat) :=
  match skip_whitespaces s pos with
  | .ok p =>
    match s.get? p with
    | none => .exn "expected character, but not found"
    | some c =>
      if c = '(' then .ok (.lparenTok, p + 1)
      else if c = ')' then .ok (.rparenTok, p + 1)
      else if c = ',' then .ok (.commaTok, p + 1)
      else if c = '\'' then .ok (.quoteTok, p + 1)
      else if c = Char.ofNat 96 then .ok (.backQuoteTok, p + 1)
      else if c = '@' then .ok (.atmarkTok, p + 1)
      else if c.isDigit then
        let j := p + ((s.drop p).takeWhile Char.isDigit).length
        if s.get? j = some '.' then
          let j2 := (j + 1) + ((s.drop (j + 1)).takeWhile Char.isDigit).length
          .ok (.numberTok (String.mk ((s.drop p).take (j2 - p))), j2)
        else
          .ok (.integerTok (Int.ofNat (natOfDigits ((s.drop p).take (j - p)))), j)
      else if c = '\"' then
        let content := (s.drop (p + 1)).takeWhile (fun ch => ch != '\"')
        .ok (.stringTok (String.mk content), p + 1 + content.length + 1)
      else if is_ident_head_elem c then
        let lexeme := (s.drop p).takeWhile is_ident_tail_elem
        .ok (.identifierTok (String.mk lexeme), p + lexeme.length)
      else
        .exn ("unexpected character '" ++ String.mk [c] ++ "' found")
  | .exn m => .exn m
  | .ub m => .ub m
  | .exited k => .exited k
  | .timeout => .timeout

/-- The `lex` loop (lexer.cpp 86-94): `while (it != last)
tokens.push_back(token(it, last))`.  The fuel bounds the number of
iterations. -/
def lexLoop : Nat → List Char → Nat → List Token → Outcome (List Token)
  | 0, _, _, _ => .timeout
  | f+1, s, pos, acc =>
    if pos = s.length then .ok acc.reverse
    else
      match token s pos with
      | .ok (t, pos2) => lexLoop f s pos2 (t :: acc)
      | .exn m => .exn m
      | .ub m => .ub m
      | .exited k => .exited k
      | .timeout => .timeout

/-- `lex(input)` (lexer.cpp 86-94). -/
def lex (f : Nat) (input : String) : Outcome (List Token) :=
  lexLoop f input.data 0 []

end MLisp.Gen2

namespace MLisp.Gen1

/-! ### Claim-shaped specification definitions for the `main.cpp` model -/

/-- Written from the claim: evaluate each argument expression, in order, in
the caller's environment, collecting the list of resulting values.  Fuel
convention matches the binding loop (one tick per element, the element's
evaluation one tick below). -/
def evalArgsSpec : Nat → List Obj → Env → Res
  | 0, _, _ => .timeout
  | _+1, [], _ => .ok (.objs [])
  | f+1, a :: rest, env =>
    match run f (.eval a env) with
    | .ok (.obj v) =>
      match evalArgsSpec f rest env with
      | .ok (.objs vs) => .ok (.objs (v :: vs))
      | .ok _ => .ub "spec: argument evaluation produced a non-object result"
      | .exn m => .exn m
      | .ub m => .ub m
      | .exited c => .exited c
      | .timeout => .timeout
    | .ok _ => .ub "spec: argument evaluation produced a non-object result"
    | .exn m => .exn m
    | .ub m => .ub m
    | .exited c => .exited c
    | .timeout => .timeout

/-- Written from the claim: bind the parameters pairwise, in order, to the
already-computed values. -/
def bindPairwise (temp : Env) : List String → List Obj → Env
  | [], _ => temp
  | _ :: _, [] => temp
  | p :: ps, v :: vs => bindPairwise (set_obj temp p v) ps vs

/-- A numeric literal operand (the claim speaks about calls whose operands
are numbers). -/
inductive NumLit where
  | int (n : Int)
  | num (q : Rat)

/-- The object a numeric literal denotes. -/
def NumLit.toObj : NumLit → Obj
  | .int n => .integer n
  | .num q => .number q

/-- Written from the amended claim, one `-` step: combine the next operand
`a` on the LEFT of the accumulator (`a - acc`); `Integer` with `Integer`
stays `Integer`, any `Number` makes the result `Number`. -/
def NumLit.subStep : NumLit → NumLit → NumLit
  | .int l, .int r => .int (l - r)
  | .int l, .num r => .num ((l : Rat) - r)
  | .num l, .int r => .num (l - (r : Rat))
  | .num l, .num r => .num (l - r)

/-- Written from the amended claim, one `+` step. -/
def NumLit.addStep : NumLit → NumLit → NumLit
  | .int l, .int r => .int (l + r)
  | .int l, .num r => .num ((l : Rat) + r)
  | .num l, .int r => .num (l + (r : Rat))
  | .num l, .num r => .num (l + r)

/-- The amended accumulation for `-` over the remaining operands. -/
def subAccumLit (acc : NumLit) : List NumLit → NumLit
  | [] => acc
  | a :: rest => subAccumLit (a.subStep acc) rest

/-- The amended accumulation for `+` over the remaining operands. -/
def addAccumLit (acc : NumLit) : List NumLit → NumLit
  | [] => acc
  | a :: rest => addAccumLit (a.addStep acc) rest

/-- The amended accumulation for `-`, on integer values only:
`acc := a - acc` for each further operand `a`. -/
def subAccum (acc : Int) : List Int → Int
  | [] => acc
  | n :: rest => subAccum (n - acc) rest

/-- Does the operand list consist of `Integer` literals only? -/
def allInt : List NumLit → Bool
  | [] => true
  | .int _ :: rest => allInt rest
  | .num _ :: _ => false

/-- Written from the amended claim, one step of any of the four operators,
with the operands in the code's loop order (`a op acc`): `Integer` with
`Integer` stays `Integer` (`none` marks the undefined integer division by
zero), any `Number` operand makes the result `Number`. -/
def NumLit.opStep (op : ArithOp) : NumLit → NumLit → Option NumLit
  | .int l, .int r =>
    match op with
    | .add => some (.int (l + r))
    | .sub => some (.int (l - r))
    | .mul => some (.int (l * r))
    | .div => if r = 0 then none else some (.int (Int.tdiv l r))
  | .int l, .num r => some (.num (ratArith op (l : Rat) r))
  | .num l, .int r => some (.num (ratArith op l (r : Rat)))
  | .num l, .num r => some (.num (ratArith op l r))

/-- The amended accumulation over the remaining operands: `acc := a op acc`
for each further operand `a`, aborting on an undefined step. -/
def accumLit (op : ArithOp) (acc : NumLit) : List NumLit → Option NumLit
  | [] => some acc
  | a :: rest =>
    match NumLit.opStep op a acc with
    | some acc2 => accumLit op acc2 rest
    | none => none

/-- Seed plus accumulation: the value `(op a1 a2 …)` returns (when it
returns one) per the amended claim — accumulator seeded with `a1 op a2`,
then `acc := a op acc` over the remaining operands. -/
def arithSpec (op : ArithOp) (l1 l2 : NumLit) (ls : List NumLit) : Option NumLit :=
  match NumLit.opStep op l1 l2 with
  | some acc0 => accumLit op acc0 ls
  | none => none

/-- The amended accumulation for `/`, on integer values only:
`acc := a / acc` (truncating) for each further operand `a`; `none` when a
zero divisor is reached. -/
def divAccum (acc : Int) : List Int → Option Int
  | [] => some acc
  | n :: rest => if acc = 0 then none else divAccum (Int.tdiv n acc) rest

end MLisp.Gen1

open MLisp

/-! ## Helper lemmas -/

/-- One unfolding of the non-advancing body loop of the modular
`apply_func` on a non-empty body. -/
theorem gen2_body_loop_step (f : Nat) (b : Gen2.Obj) (rest : List Gen2.Obj)
    (env : Gen2.Env) :
    Gen2.run (f+1) (.body_loop (b :: rest) env) =
      match Gen2.run f (.eval b env) with
      | .ok (.obj _) => Gen2.run f (.body_loop (b :: rest) env)
      | r => r := rfl

/-- The non-advancing body loop never returns on the body `(1)`, whatever
fuel it is given. -/
theorem gen2_body_loop_stuck :
    ∀ (f : Nat) (env : Gen2.Env),
      Gen2.run f (.body_loop [.integer 1] env) = .timeout := by
  intro f
  induction f using Nat.strong_induction_on with
  | _ f ih =>
    intro env
    match f with
    | 0 => rfl
    | 1 => rfl
    | g+2 =>
      have step : Gen2.run (g+2) (.body_loop [.integer 1] env) =
          Gen2.run (g+1) (.body_loop [.integer 1] env) := rfl
      rw [step]
      exact ih (g+1) (by omega) env

/-- A successful `takeLoop` (the `num ≥ 0` path of `take_args`) returns a
vector with exactly `n` elements. -/
theorem gen2_takeLoop_length :
    ∀ (n : Nat) (name : String) (args : List Gen2.Obj) (r : Bool)
      (l : List Gen2.Obj),
      Gen2.takeLoop name args n r = .ok l → l.length = n := by
  intro n
  induction n with
  | zero =>
    intro name args r l h
    cases args with
    | nil =>
      simp [Gen2.takeLoop] at h
      simp [← h]
    | cons a rest =>
      cases r with
      | false =>
        simp [Gen2.takeLoop] at h
        simp [← h]
      | true => simp [Gen2.takeLoop] at h
  | succ m ih =>
    intro name args r l h
    cases args with
    | nil => simp [Gen2.takeLoop] at h
    | cons a rest =>
      simp only [Gen2.takeLoop] at h
      cases htl : Gen2.takeLoop name rest m r with
      | ok l2 =>
        rw [htl] at h
        simp [Outcome.map] at h
        rw [← h]
        simp [ih name rest r l2 htl]
      | exn m2 => rw [htl] at h; simp [Outcome.map] at h
      | ub m2 => rw [htl] at h; simp [Outcome.map] at h
      | exited c2 => rw [htl] at h; simp [Outcome.map] at h
      | timeout => rw [htl] at h; simp [Outcome.map] at h

/-! ## The claims -/

/-- C1: in `main.cpp`, applying a user-defined `Function` with `n`
parameters to `k` raw argument cells returns
`PartiallyAppliedFunction{func, args}` without running any body expression
when `k < n`, and throws the arity-excess `EvalException` when `k > n`.
In the modular generation (`src/eval.cpp`) the same claim FAILS: a call
with `1 = k < n = 2` dereferences a null argument pointer inside the
binding loop, a call with `k = 0 < n` calls `kind()` through the null
argument chain, and a call with `k = 2 > n = 1` binds the first parameter,
ignores the extra argument and returns normally instead of raising
arity-excess. -/
theorem C1_function_arity :
    (∀ (f : Nat) (ps : List String) (body args : List Gen1.Obj) (env : Gen1.Env),
      args.length < ps.length →
      Gen1.apply_func (f+1) ps body args env = .ok (.obj (.partFunc ps body args)))
    ∧ (∀ (f : Nat) (ps : List String) (body args : List Gen1.Obj) (env : Gen1.Env),
      args.length > ps.length →
      Gen1.apply_func (f+1) ps body args env =
        .exn ("different number of argument to function: expect "
          ++ toString ps.length ++ ", but got " ++ toString args.length))
    ∧ (∀ (f : Nat) (env : Gen2.Env),
      Gen2.apply_func (f+3) (.list (.symbol "x") [.symbol "y"]) [] [.integer 1] env
        = .ub "apply_func: value() called through a null arg pointer")
    ∧ (∀ (f : Nat) (env : Gen2.Env),
      Gen2.apply_func (f+1) (.list (.symbol "x") []) [.integer 7] [] env
        = .ub "apply_func: kind() called through a null args pointer")
    ∧ (∀ (f : Nat) (env : Gen2.Env),
      Gen2.apply_func (f+4) (.list (.symbol "x") []) [] [.integer 1, .integer 2] env
        = .ok (.obj .nil)) := by
  refine ⟨?_, ?_, ?_, ?_, ?_⟩
  · intro f ps body args env h
    have h1 : ¬ args.length > ps.length := by omega
    have h2 : ¬ args.length = ps.length := by omega
    simp [Gen1.apply_func, Gen1.run, h1, h2]
  · intro f ps body args env h
    have h2 : ¬ args.length = ps.length := by omega
    simp [Gen1.apply_func, Gen1.run, h, h2]
  · intro f env; rfl
  · intro f env; rfl
  · intro f env; rfl

/-- Witness for C1 at a concrete input: a two-parameter function applied to
one argument yields the partly-applied value, and applied to three
arguments yields the arity error. -/
theorem C1_function_arity_witness :
    Gen1.apply_func 5 ["x", "y"] [.symbol "x"] [.integer 1] [[]]
      = .ok (.obj (.partFunc ["x", "y"] [.symbol "x"] [.integer 1]))
    ∧ Gen1.apply_func 5 ["x", "y"] [.symbol "x"]
        [.integer 1, .integer 2, .integer 3] [[]]
      = .exn ("different number of argument to function: expect "
          ++ toString (2 : Nat) ++ ", but got " ++ toString (3 : Nat)) :=
  ⟨C1_function_arity.1 4 ["x", "y"] [.symbol "x"] [.integer 1] [[]] (by decide),
   C1_function_arity.2.1 4 ["x", "y"] [.symbol "x"]
     [.integer 1, .integer 2, .integer 3] [[]] (by decide)⟩

/-- C3: the claim says a `Function` applied to exactly as many arguments as
parameters evaluates each body expression once, left to right, returning
the last value (`NIL` for an empty body).  In the cited `src/eval.cpp`
`apply_func` the body loop `while (body != nullptr) { result =
eval(body->value(), env); }` never advances `body`: a function with the
non-empty body `(1)` re-evaluates `1` forever (the evaluator times out at
EVERY fuel), while only the empty body returns `NIL`. -/
theorem C3_body_loop_divergence :
    (∀ (f : Nat) (env : Gen2.Env),
      Gen2.apply_func f (.list (.symbol "x") []) [.integer 1] [.integer 2] env
        = .timeout)
    ∧ (∀ (f : Nat) (env : Gen2.Env),
      Gen2.apply_func (f+3) (.list (.symbol "x") []) [] [.integer 2] env
        = .ok (.obj .nil)) := by
  constructor
  · intro f env
    match f with
    | 0 => rfl
    | 1 => rfl
    | 2 => rfl
    | g+3 =>
      have step : Gen2.apply_func (g+3) (.list (.symbol "x") [])
          [.integer 1] [.integer 2] env =
          Gen2.run (g+2) (.body_loop [.integer 1] (Gen2.set_obj env "x" (.integer 2))) := rfl
      rw [step]
      exact gen2_body_loop_stuck (g+2) _
  · intro f env
    rfl

/-- C7: the claim says evaluating a combination whose head is a
PartiallyApplied value leaves the value's stored pending-argument list
unchanged.  In fact `apply_part_func` (main.cpp 1235-1243) extends the
stored chain in place through `List::append`: after applying the pending
value `{(lambda (x y) x), (1)}` to `(2)` (which correctly returns `1`) the
stored chain is `(1 2)`, not `(1)`, and a second application of the same
value to `(3)` therefore sees three arguments and throws arity-excess. -/
theorem C7_pending_args_mutation :
    ∀ f : Nat,
      Gen1.apply_part_func (f+6) ["x", "y"] [.symbol "x"] [.integer 1] [.integer 2] [[]]
        = .ok (.obj (.integer 1))
      ∧ Gen1.listAppend [.integer 1] [.integer 2] ≠ [.integer 1]
      ∧ Gen1.apply_part_func (f+6) ["x", "y"] [.symbol "x"]
          (Gen1.listAppend [.integer 1] [.integer 2]) [.integer 3] [[]]
        = .exn "different number of argument to function: expect 2, but got 3" := by
  intro f
  refine ⟨rfl, by simp [Gen1.listAppend], rfl⟩

/-- C8: the claim says an all-`Integer` division reaching a zero divisor
raises *ArithError*.  No such check exists anywhere in the source: for
`(/ n 0)` the macro `APPLY_ARITH_OP_TO_NUMS` executes the C++ expression
`l / r` with `r == 0`, which is undefined behaviour (in practice SIGFPE) —
no `EvalException` of any kind is thrown.  Moreover, because the fold is
swapped (`a[i] / acc`), a zero in a LATER operand position does not even
divide by zero: `(/ 6 3 0)` computes `0 / (6 / 3)` and returns `0`. -/
theorem C8_integer_division_by_zero :
    (∀ (f : Nat) (env : Gen2.Env) (n : Int),
      Gen2.fn_div_num (f+6) [.integer n, .integer 0] env
        = .ub "integer division by zero (SIGFPE)")
    ∧ (∀ (f : Nat) (env : Gen2.Env),
      Gen2.fn_div_num (f+7) [.integer 6, .integer 3, .integer 0] env
        = .ok (.obj (.integer 0))) := by
  constructor
  · intro f env n; rfl
  · intro f env; rfl

/-- C9: the claim says an opening `"` with no closing `"` makes lexing fail
with a lex error and produces no `String` token for the remainder.  The
cited `token` (src/lexer.cpp 67-72, and identically main.cpp 195-200) does
the opposite: it builds a `StringToken` holding the rest of the input and
sets the iterator to `rit + 1`, one position PAST the end; the `lex` loop's
`it != last` test then passes and the next `token` call dereferences the
iterator beyond the end of the input — undefined behaviour, not a
`LexException`. -/
theorem C9_unterminated_string :
    Gen2.token ("\"abc".data) 0 = .ok (.stringTok "abc", 5)
    ∧ (∀ f : Nat,
      Gen2.lex (f+2) "\"abc"
        = .ub "lexer: iterator dereferenced past the end of the input") := by
  exact ⟨rfl, fun f => rfl⟩

/-- C10: the claim says the `NIL` branch of the modular `fn_lambda` stays
within the bounds of the vector returned by `take_args(…, 1, false)`.  That
vector always has exactly one element (first conjunct), yet the `NIL`
branch returns `FunctionObject(a[1], args->next())`, reading `a[1]` one
past the end — undefined behaviour, and no nullary `Function` is built
(third conjunct, at the call `(lambda ())`). -/
theorem C10_lambda_nil_oob :
    (∀ (name : String) (args : List Gen2.Obj) (n : Nat) (r : Bool)
       (l : List Gen2.Obj),
      Gen2.takeLoop name args n r = .ok l → l.length = n)
    ∧ Gen2.take_args "lambda" [Gen2.Obj.nil] 1 false = .ok [Gen2.Obj.nil]
    ∧ Gen2.fn_lambda [Gen2.Obj.nil]
        = .ub "fn_lambda: a[1] subscript out of bounds of a one-element vector" :=
  ⟨fun name args n r l h => gen2_takeLoop_length n name args r l h, rfl, rfl⟩

/-- Witness for C10: the vector taken from the argument list `(NIL)` has
exactly one element. -/
theorem C10_lambda_nil_oob_witness :
    ([Gen2.Obj.nil] : List Gen2.Obj).length = 1 :=
  C10_lambda_nil_oob.1 "lambda" [Gen2.Obj.nil] 1 false [Gen2.Obj.nil] rfl

/-- One step of the `fn_sub_num` loop on numeric literal data:
`APPLY_ARITH_OP_TO_NUMS(a, acc, acc, -)` computes `a - acc` and the loop
moves on. -/
theorem gen1_arith_loop_sub_step (f : Nat) (a acc : Gen1.NumLit)
    (rest : List Gen1.Obj) (env : Gen1.Env) :
    Gen1.run (f+1+1) (.arith_loop .sub (a.toObj :: rest) acc.toObj env)
      = Gen1.run (f+1) (.arith_loop .sub rest (a.subStep acc).toObj env) := by
  cases a <;> cases acc <;> rfl

/-- One step of the `fn_add_num` loop on integer data. -/
theorem gen1_arith_loop_add_step (f : Nat) (n acc : Int)
    (rest : List Gen1.Obj) (env : Gen1.Env) :
    Gen1.run (f+1+1) (.arith_loop .add (.integer n :: rest) (.integer acc) env)
      = Gen1.run (f+1) (.arith_loop .add rest (.integer (n + acc)) env) := rfl

/-- The arithmetic loop of `fn_sub_num` over numeric literals computes the
swapped accumulation `acc := a - acc`. -/
theorem gen1_arith_loop_sub :
    ∀ (ls : List Gen1.NumLit) (f : Nat) (env : Gen1.Env) (acc : Gen1.NumLit),
      Gen1.run (ls.length + f + 1)
          (.arith_loop .sub (ls.map Gen1.NumLit.toObj) acc.toObj env)
        = .ok (.obj (Gen1.subAccumLit acc ls).toObj) := by
  intro ls
  induction ls with
  | nil => intro f env acc; rfl
  | cons a rest ih =>
    intro f env acc
    have hfuel : (a :: rest).length + f + 1 = (rest.length + f) + 1 + 1 := by
      simp [List.length]
      omega
    rw [hfuel, List.map, gen1_arith_loop_sub_step (rest.length + f) a acc]
    exact ih f env (a.subStep acc)

/-- The arithmetic loop of `fn_add_num` over integer literals computes the
left fold of `+` (the operand swap is invisible because `+` commutes). -/
theorem gen1_arith_loop_add_int :
    ∀ (ns : List Int) (f : Nat) (env : Gen1.Env) (acc : Int),
      Gen1.run (ns.length + f + 1)
          (.arith_loop .add (ns.map Gen1.Obj.integer) (.integer acc) env)
        = .ok (.obj (.integer (ns.foldl (fun x y => x + y) acc))) := by
  intro ns
  induction ns with
  | nil => intro f env acc; rfl
  | cons n rest ih =>
    intro f env acc
    have hfuel : (n :: rest).length + f + 1 = (rest.length + f) + 1 + 1 := by
      simp [List.length]
      omega
    rw [hfuel, List.map, gen1_arith_loop_add_step (rest.length + f) n acc]
    rw [List.foldl, Int.add_comm n acc]
    exact ih f env (acc + n)

/-- `fn_sub_num` on two-or-more numeric literal operands reaches the loop
with the accumulator seeded by `a1 - a2`. -/
theorem gen1_fn_sub_entry (f : Nat) (l1 l2 : Gen1.NumLit)
    (rest : List Gen1.Obj) (env : Gen1.Env) :
    Gen1.fn_sub_num (f+1+1+1) (l1.toObj :: l2.toObj :: rest) env
      = Gen1.run (f+1) (.arith_loop .sub rest (l1.subStep l2).toObj env) := by
  cases l1 <;> cases l2 <;> rfl

/-- `fn_add_num` on two-or-more integer operands reaches the loop with the
accumulator seeded by `a1 + a2`. -/
theorem gen1_fn_add_entry (f : Nat) (a b : Int)
    (rest : List Gen1.Obj) (env : Gen1.Env) :
    Gen1.fn_add_num (f+1+1+1) (.integer a :: .integer b :: rest) env
      = Gen1.run (f+1) (.arith_loop .add rest (.integer (a + b)) env) := rfl

/-- `fn_sub_num` over numeric literals: seed `a1 - a2`, then the swapped
accumulation over the remaining operands. -/
theorem gen1_fn_sub_num_numlits :
    ∀ (f : Nat) (env : Gen1.Env) (l1 l2 : Gen1.NumLit) (ls : List Gen1.NumLit),
      Gen1.fn_sub_num (ls.length + f + 1 + 1 + 1 + 1)
          ((l1 :: l2 :: ls).map Gen1.NumLit.toObj) env
        = .ok (.obj (Gen1.subAccumLit (l1.subStep l2) ls).toObj) := by
  intro f env l1 l2 ls
  rw [List.map, List.map]
  have hfuel : ls.length + f + 1 + 1 + 1 + 1 = (ls.length + f + 1) + 1 + 1 + 1 := by
    omega
  rw [hfuel, gen1_fn_sub_entry (ls.length + f + 1) l1 l2]
  have hfuel2 : ls.length + f + 1 + 1 = ls.length + (f + 1) + 1 := by omega
  rw [hfuel2]
  exact gen1_arith_loop_sub ls (f+1) env (l1.subStep l2)

/-- `fn_add_num` over integer literals: the left fold of `+`. -/
theorem gen1_fn_add_num_ints :
    ∀ (f : Nat) (env : Gen1.Env) (a b : Int) (ns : List Int),
      Gen1.fn_add_num (ns.length + f + 1 + 1 + 1 + 1)
          ((a :: b :: ns).map Gen1.Obj.integer) env
        = .ok (.obj (.integer (ns.foldl (fun x y => x + y) (a + b)))) := by
  intro f env a b ns
  rw [List.map, List.map]
  have hfuel : ns.length + f + 1 + 1 + 1 + 1 = (ns.length + f + 1) + 1 + 1 + 1 := by
    omega
  rw [hfuel, gen1_fn_add_entry (ns.length + f + 1) a b]
  have hfuel2 : ns.length + f + 1 + 1 = ns.length + (f + 1) + 1 := by omega
  rw [hfuel2]
  exact gen1_arith_loop_add_int ns (f+1) env (a + b)

/-- The swapped accumulation restricted to integers. -/
theorem gen1_subAccumLit_int :
    ∀ (ns : List Int) (acc : Int),
      Gen1.subAccumLit (.int acc) (ns.map Gen1.NumLit.int)
        = .int (Gen1.subAccum acc ns) := by
  intro ns
  induction ns with
  | nil => intro acc; rfl
  | cons n rest ih =>
    intro acc
    simp [Gen1.subAccumLit, Gen1.NumLit.subStep, Gen1.subAccum, ih]

/-- The swapped accumulation promotes to `Number` as soon as the
accumulator is a `Number` or any remaining operand is. -/
theorem gen1_subAccumLit_num :
    ∀ (ls : List Gen1.NumLit) (acc : Gen1.NumLit),
      ((∃ q, acc = .num q) ∨ Gen1.allInt ls = false) →
      ∃ q : Rat, Gen1.subAccumLit acc ls = .num q := by
  intro ls
  induction ls with
  | nil =>
    intro acc h
    rcases h with ⟨q, rfl⟩ | h
    · exact ⟨q, rfl⟩
    · simp [Gen1.allInt] at h
  | cons a rest ih =>
    intro acc h
    cases a with
    | num q =>
      apply ih
      left
      cases acc with
      | int r => exact ⟨_, rfl⟩
      | num r => exact ⟨_, rfl⟩
    | int n =>
      rcases h with ⟨q, rfl⟩ | h
      · apply ih
        left
        exact ⟨_, rfl⟩
      · apply ih
        right
        simpa [Gen1.allInt] using h

/-- Integer literal lists are the `toObj` image of `NumLit.int` lists. -/
theorem gen1_map_int_toObj (ns : List Int) :
    ns.map Gen1.Obj.integer = (ns.map Gen1.NumLit.int).map Gen1.NumLit.toObj := by
  induction ns with
  | nil => rfl
  | cons n rest ih => simp [List.map, Gen1.NumLit.toObj, ih]

/-- C5 counterexample: the claim predicts `(- 10 1 2) = (10 - 1) - 2 = 7`,
but the loop applies `APPLY_ARITH_OP_TO_NUMS(a, acc, acc, -)` with the new
operand on the left, so the interpreter returns `2 - (10 - 1) = -7`. -/
theorem C5_left_fold_counterexample :
    Gen1.fn_sub_num 9 [.integer 10, .integer 1, .integer 2] [[]]
      = .ok (.obj (.integer (-7)))
    ∧ ((10 - 1) - 2 : Int) ≠ -7 :=
  ⟨rfl, by decide⟩

/-- `APPLY_ARITH_OP_TO_NUMS` on two numeric literal operands agrees with
the literal-level step (the `none` case is the undefined integer division
by zero). -/
theorem gen1_applyArithOp_numlit (op : ArithOp) (a acc : Gen1.NumLit) :
    Gen1.applyArithOp op a.toObj acc.toObj
      = match Gen1.NumLit.opStep op a acc with
        | some r => .ok r.toObj
        | none => .ub "integer division by zero (SIGFPE)" := by
  cases op <;> cases a <;> cases acc <;> try rfl
  next l r =>
    by_cases h : r = 0 <;>
      simp [Gen1.applyArithOp, MLisp.intArith, Gen1.NumLit.opStep,
        Gen1.NumLit.toObj, Outcome.map, h]

/-- One step of the shared arithmetic loop on numeric literal data, for any
of the four operators: `APPLY_ARITH_OP_TO_NUMS(a, acc, acc, op)` computes
`a op acc` and the loop moves on (or the undefined integer division by
zero is reached). -/
theorem gen1_arith_loop_step_numlit (f : Nat) (op : ArithOp)
    (a acc : Gen1.NumLit) (rest : List Gen1.Obj) (env : Gen1.Env) :
    Gen1.run (f+1+1) (.arith_loop op (a.toObj :: rest) acc.toObj env)
      = match Gen1.NumLit.opStep op a acc with
        | some acc2 => Gen1.run (f+1) (.arith_loop op rest acc2.toObj env)
        | none => .ub "integer division by zero (SIGFPE)" := by
  have h1 : Gen1.run (f+1+1) (.arith_loop op (a.toObj :: rest) acc.toObj env)
      = match Gen1.applyArithOp op a.toObj acc.toObj with
        | .ok acc2 => Gen1.run (f+1) (.arith_loop op rest acc2 env)
        | .exn m => .exn m
        | .ub m => .ub m
        | .exited c => .exited c
        | .timeout => .timeout := by
    cases a <;> cases acc <;> rfl
  rw [h1, gen1_applyArithOp_numlit op a acc]
  cases hstep : Gen1.NumLit.opStep op a acc <;> simp

/-- The shared arithmetic loop over numeric literals computes the swapped
accumulation `acc := a op acc`, for any of the four operators. -/
theorem gen1_arith_loop_numlit :
    ∀ (ls : List Gen1.NumLit) (f : Nat) (env : Gen1.Env) (op : ArithOp)
      (acc : Gen1.NumLit),
      Gen1.run (ls.length + f + 1)
          (.arith_loop op (ls.map Gen1.NumLit.toObj) acc.toObj env)
        = match Gen1.accumLit op acc ls with
          | some r => .ok (.obj r.toObj)
          | none => .ub "integer division by zero (SIGFPE)" := by
  intro ls
  induction ls with
  | nil => intro f env op acc; rfl
  | cons a rest ih =>
    intro f env op acc
    have hfuel : (a :: rest).length + f + 1 = (rest.length + f) + 1 + 1 := by
      simp [List.length]
      omega
    rw [hfuel, List.map, gen1_arith_loop_step_numlit (rest.length + f) op a acc]
    cases hstep : Gen1.NumLit.opStep op a acc with
    | none => simp [Gen1.accumLit, hstep]
    | some acc2 =>
      simp only [Gen1.accumLit, hstep]
      exact ih f env op acc2

/-- Any of the four arithmetic builtins, on two-or-more numeric literal
operands: seed the accumulator with `a1 op a2`, then run the swapped
accumulation over the remaining operands. -/
theorem gen1_fn_arith_numlits (op : ArithOp) (f : Nat) (env : Gen1.Env)
    (l1 l2 : Gen1.NumLit) (ls : List Gen1.NumLit) :
    Gen1.run (ls.length + f + 1 + 1 + 1)
        (.fn_arith op ((l1 :: l2 :: ls).map Gen1.NumLit.toObj) env)
      = match Gen1.arithSpec op l1 l2 ls with
        | some r => .ok (.obj r.toObj)
        | none => .ub "integer division by zero (SIGFPE)" := by
  rw [List.map, List.map]
  have h1 : Gen1.run (ls.length + f + 1 + 1 + 1)
      (.fn_arith op (l1.toObj :: l2.toObj :: ls.map Gen1.NumLit.toObj) env)
      = match Gen1.applyArithOp op l1.toObj l2.toObj with
        | .ok acc0 => Gen1.run (ls.length + f + 1 + 1)
            (.arith_loop op (ls.map Gen1.NumLit.toObj) acc0 env)
        | .exn m => .exn m
        | .ub m => .ub m
        | .exited c => .exited c
        | .timeout => .timeout := by
    cases l1 <;> cases l2 <;> rfl
  rw [h1, gen1_applyArithOp_numlit op l1 l2]
  cases hseed : Gen1.NumLit.opStep op l1 l2 with
  | none => simp [Gen1.arithSpec, hseed]
  | some acc0 =>
    simp only [Gen1.arithSpec, hseed]
    have hfuel : ls.length + f + 1 + 1 = ls.length + (f + 1) + 1 := by omega
    rw [hfuel, gen1_arith_loop_numlit ls (f + 1) env op acc0]

/-- The swapped accumulation for `*` restricted to integers is the left
fold of `*` (the operand swap is invisible because `*` commutes). -/
theorem gen1_accumLit_mul_int :
    ∀ (ns : List Int) (acc : Int),
      Gen1.accumLit .mul (.int acc) (ns.map Gen1.NumLit.int)
        = some (.int (ns.foldl (fun x y => x * y) acc)) := by
  intro ns
  induction ns with
  | nil => intro acc; rfl
  | cons n rest ih =>
    intro acc
    simp [Gen1.accumLit, Gen1.NumLit.opStep, List.foldl, Int.mul_comm n acc, ih]

/-- The swapped accumulation for `/` restricted to integers is the
claim-shaped `divAccum`. -/
theorem gen1_accumLit_div_int :
    ∀ (ns : List Int) (acc : Int),
      Gen1.accumLit .div (.int acc) (ns.map Gen1.NumLit.int)
        = Option.map Gen1.NumLit.int (Gen1.divAccum acc ns) := by
  intro ns
  induction ns with
  | nil => intro acc; rfl
  | cons n rest ih =>
    intro acc
    by_cases h : acc = 0
    · simp [Gen1.accumLit, Gen1.NumLit.opStep, Gen1.divAccum, h]
    · simp [Gen1.accumLit, Gen1.NumLit.opStep, Gen1.divAccum, h, ih]

/-- A literal-level step with a `Number` on either side yields a `Number`,
for any of the four operators. -/
theorem gen1_opStep_num :
    ∀ (op : ArithOp) (a acc : Gen1.NumLit),
      ((∃ q, a = Gen1.NumLit.num q) ∨ (∃ q, acc = Gen1.NumLit.num q)) →
      ∃ q2, Gen1.NumLit.opStep op a acc = some (Gen1.NumLit.num q2) := by
  intro op a acc h
  cases a with
  | num q => cases acc <;> exact ⟨_, rfl⟩
  | int n =>
    cases acc with
    | num r => exact ⟨_, rfl⟩
    | int r => rcases h with ⟨q, hq⟩ | ⟨q, hq⟩ <;> simp at hq

/-- A literal-level step for `+`, `-` or `*` is always defined. -/
theorem gen1_opStep_total :
    ∀ (op : ArithOp) (a acc : Gen1.NumLit), op ≠ .div →
      ∃ r, Gen1.NumLit.opStep op a acc = some r := by
  intro op a acc hop
  cases a with
  | num q => cases acc <;> exact ⟨_, rfl⟩
  | int n =>
    cases acc with
    | num r => exact ⟨_, rfl⟩
    | int r =>
      cases op with
      | add => exact ⟨_, rfl⟩
      | sub => exact ⟨_, rfl⟩
      | mul => exact ⟨_, rfl⟩
      | div => exact absurd rfl hop

/-- The swapped accumulation for `+`, `-` or `*` is always defined. -/
theorem gen1_accumLit_total :
    ∀ (op : ArithOp), op ≠ .div →
      ∀ (ls : List Gen1.NumLit) (acc : Gen1.NumLit),
        ∃ r, Gen1.accumLit op acc ls = some r := by
  intro op hop ls
  induction ls with
  | nil => intro acc; exact ⟨acc, rfl⟩
  | cons a rest ih =>
    intro acc
    obtain ⟨acc2, hstep⟩ := gen1_opStep_total op a acc hop
    obtain ⟨r, hr⟩ := ih acc2
    refine ⟨r, ?_⟩
    simp [Gen1.accumLit, hstep, hr]

/-- Seed plus accumulation for `+`, `-` or `*` is always defined. -/
theorem gen1_arithSpec_total :
    ∀ (op : ArithOp), op ≠ .div →
      ∀ (l1 l2 : Gen1.NumLit) (ls : List Gen1.NumLit),
        ∃ r, Gen1.arithSpec op l1 l2 ls = some r := by
  intro op hop l1 l2 ls
  obtain ⟨acc0, hseed⟩ := gen1_opStep_total op l1 l2 hop
  obtain ⟨r, hr⟩ := gen1_accumLit_total op hop ls acc0
  refine ⟨r, ?_⟩
  simp [Gen1.arithSpec, hseed, hr]

/-- The swapped accumulation promotes to `Number` as soon as the
accumulator is a `Number` or any remaining operand is, for any of the four
operators. -/
theorem gen1_accumLit_promotes :
    ∀ (op : ArithOp) (ls : List Gen1.NumLit) (acc r : Gen1.NumLit),
      Gen1.accumLit op acc ls = some r →
      ((∃ q, acc = Gen1.NumLit.num q) ∨ Gen1.allInt ls = false) →
      ∃ q : Rat, r = Gen1.NumLit.num q := by
  intro op ls
  induction ls with
  | nil =>
    intro acc r hr h
    have har : acc = r := Option.some.inj hr
    rcases h with ⟨q, hq⟩ | h
    · exact ⟨q, har ▸ hq⟩
    · simp [Gen1.allInt] at h
  | cons a rest ih =>
    intro acc r hr h
    cases hstep : Gen1.NumLit.opStep op a acc with
    | none => simp [Gen1.accumLit, hstep] at hr
    | some acc2 =>
      simp only [Gen1.accumLit, hstep] at hr
      apply ih acc2 r hr
      rcases h with hacc | hfalse
      · obtain ⟨q2, hq2⟩ := gen1_opStep_num op a acc (Or.inr hacc)
        exact Or.inl ⟨q2, Option.some.inj (hstep.symm.trans hq2)⟩
      · cases a with
        | num q =>
          obtain ⟨q2, hq2⟩ := gen1_opStep_num op (.num q) acc (Or.inl ⟨q, rfl⟩)
          exact Or.inl ⟨q2, Option.some.inj (hstep.symm.trans hq2)⟩
        | int n =>
          right
          simpa [Gen1.allInt] using hfalse

/-- Seed plus accumulation promotes to `Number` as soon as any operand is a
`Number`, for any of the four operators. -/
theorem gen1_arithSpec_promotes :
    ∀ (op : ArithOp) (l1 l2 : Gen1.NumLit) (ls : List Gen1.NumLit)
      (r : Gen1.NumLit),
      Gen1.arithSpec op l1 l2 ls = some r →
      Gen1.allInt (l1 :: l2 :: ls) = false →
      ∃ q : Rat, r = Gen1.NumLit.num q := by
  intro op l1 l2 ls r hr hfalse
  cases hseed : Gen1.NumLit.opStep op l1 l2 with
  | none => simp [Gen1.arithSpec, hseed] at hr
  | some acc0 =>
    simp only [Gen1.arithSpec, hseed] at hr
    apply gen1_accumLit_promotes op ls acc0 r hr
    cases l1 with
    | num q1 =>
      obtain ⟨q2, hq2⟩ := gen1_opStep_num op (.num q1) l2 (Or.inl ⟨q1, rfl⟩)
      exact Or.inl ⟨q2, Option.some.inj (hseed.symm.trans hq2)⟩
    | int n1 =>
      cases l2 with
      | num q2 =>
        obtain ⟨q3, hq3⟩ := gen1_opStep_num op (.int n1) (.num q2) (Or.inr ⟨q2, rfl⟩)
        exact Or.inl ⟨q3, Option.some.inj (hseed.symm.trans hq3)⟩
      | int n2 =>
        right
        simpa [Gen1.allInt] using hfalse

/-- C5 (amended): all four arithmetic builtins accumulate with the freshly
evaluated operand on the LEFT (`acc := a op acc`).  Over `main.cpp`:
`+` and `*` on Integers therefore still compute the claimed left fold
(they commute); `-` on Integers computes the swapped accumulation
`subAccum`, and `/` on Integers the swapped accumulation `divAccum`
whenever no zero divisor is reached along it; and, for each of the four
operators, whenever the call returns a value, any `Number` operand makes
that value a `Number`. -/
theorem C5_arith_fold_amended :
    (∀ (f : Nat) (env : Gen1.Env) (a b : Int) (ns : List Int),
      Gen1.fn_add_num (ns.length + f + 1 + 1 + 1 + 1)
          ((a :: b :: ns).map Gen1.Obj.integer) env
        = .ok (.obj (.integer (ns.foldl (fun x y => x + y) (a + b)))))
    ∧ (∀ (f : Nat) (env : Gen1.Env) (a b : Int) (ns : List Int),
      Gen1.fn_sub_num (ns.length + f + 1 + 1 + 1 + 1)
          ((a :: b :: ns).map Gen1.Obj.integer) env
        = .ok (.obj (.integer (Gen1.subAccum (a - b) ns))))
    ∧ (∀ (f : Nat) (env : Gen1.Env) (a b : Int) (ns : List Int),
      Gen1.fn_mul_num (ns.length + f + 1 + 1 + 1 + 1)
          ((a :: b :: ns).map Gen1.Obj.integer) env
        = .ok (.obj (.integer (ns.foldl (fun x y => x * y) (a * b)))))
    ∧ (∀ (f : Nat) (env : Gen1.Env) (a b : Int) (ns : List Int) (v : Int),
      b ≠ 0 →
      Gen1.divAccum (Int.tdiv a b) ns = some v →
      Gen1.fn_div_num (ns.length + f + 1 + 1 + 1 + 1)
          ((a :: b :: ns).map Gen1.Obj.integer) env
        = .ok (.obj (.integer v)))
    ∧ (∀ (f : Nat) (env : Gen1.Env) (l1 l2 : Gen1.NumLit) (ls : List Gen1.NumLit),
      Gen1.allInt (l1 :: l2 :: ls) = false →
      ∃ q : Rat,
        Gen1.fn_add_num (ls.length + f + 1 + 1 + 1 + 1)
            ((l1 :: l2 :: ls).map Gen1.NumLit.toObj) env
          = .ok (.obj (.number q)))
    ∧ (∀ (f : Nat) (env : Gen1.Env) (l1 l2 : Gen1.NumLit) (ls : List Gen1.NumLit),
      Gen1.allInt (l1 :: l2 :: ls) = false →
      ∃ q : Rat,
        Gen1.fn_sub_num (ls.length + f + 1 + 1 + 1 + 1)
            ((l1 :: l2 :: ls).map Gen1.NumLit.toObj) env
          = .ok (.obj (.number q)))
    ∧ (∀ (f : Nat) (env : Gen1.Env) (l1 l2 : Gen1.NumLit) (ls : List Gen1.NumLit),
      Gen1.allInt (l1 :: l2 :: ls) = false →
      ∃ q : Rat,
        Gen1.fn_mul_num (ls.length + f + 1 + 1 + 1 + 1)
            ((l1 :: l2 :: ls).map Gen1.NumLit.toObj) env
          = .ok (.obj (.number q)))
    ∧ (∀ (f : Nat) (env : Gen1.Env) (l1 l2 : Gen1.NumLit) (ls : List Gen1.NumLit)
        (r : Gen1.NumLit),
      Gen1.allInt (l1 :: l2 :: ls) = false →
      Gen1.arithSpec .div l1 l2 ls = some r →
      ∃ q : Rat,
        Gen1.fn_div_num (ls.length + f + 1 + 1 + 1 + 1)
            ((l1 :: l2 :: ls).map Gen1.NumLit.toObj) env
          = .ok (.obj (.number q))) := by
  refine ⟨gen1_fn_add_num_ints, ?_, ?_, ?_, ?_, ?_, ?_, ?_⟩
  · intro f env a b ns
    have h := gen1_fn_sub_num_numlits f env (.int a) (.int b) (ns.map Gen1.NumLit.int)
    rw [gen1_map_int_toObj]
    simp only [List.length_map] at h
    rw [show (Gen1.NumLit.int a).subStep (.int b) = .int (a - b) from rfl,
      gen1_subAccumLit_int ns (a - b)] at h
    exact h
  · intro f env a b ns
    have hb : Gen1.fn_mul_num (ns.length + f + 1 + 1 + 1 + 1)
          ((a :: b :: ns).map Gen1.Obj.integer) env
        = Gen1.run (ns.length + f + 1 + 1 + 1)
            (.fn_arith .mul ((a :: b :: ns).map Gen1.Obj.integer) env) := rfl
    rw [hb, gen1_map_int_toObj]
    have h := gen1_fn_arith_numlits .mul f env (.int a) (.int b) (ns.map Gen1.NumLit.int)
    simp only [List.length_map] at h
    have hspec : Gen1.arithSpec .mul (.int a) (.int b) (ns.map Gen1.NumLit.int)
        = some (.int (ns.foldl (fun x y => x * y) (a * b))) := by
      simp [Gen1.arithSpec, Gen1.NumLit.opStep, gen1_accumLit_mul_int ns (a * b)]
    rw [hspec] at h
    simp only [List.map, Gen1.NumLit.toObj] at h ⊢
    exact h
  · intro f env a b ns v hb0 hdiv
    have hb : Gen1.fn_div_num (ns.length + f + 1 + 1 + 1 + 1)
          ((a :: b :: ns).map Gen1.Obj.integer) env
        = Gen1.run (ns.length + f + 1 + 1 + 1)
            (.fn_arith .div ((a :: b :: ns).map Gen1.Obj.integer) env) := rfl
    rw [hb, gen1_map_int_toObj]
    have h := gen1_fn_arith_numlits .div f env (.int a) (.int b) (ns.map Gen1.NumLit.int)
    simp only [List.length_map] at h
    have hseed : Gen1.NumLit.opStep .div (.int a) (.int b)
        = some (.int (Int.tdiv a b)) := by
      simp [Gen1.NumLit.opStep, hb0]
    have hacc : Gen1.accumLit .div (.int (Int.tdiv a b)) (ns.map Gen1.NumLit.int)
        = some (.int v) := by
      rw [gen1_accumLit_div_int ns (Int.tdiv a b), hdiv]
      rfl
    have hspec : Gen1.arithSpec .div (.int a) (.int b) (ns.map Gen1.NumLit.int)
        = some (.int v) := by
      simp [Gen1.arithSpec, hseed, hacc]
    rw [hspec] at h
    simp only [List.map, Gen1.NumLit.toObj] at h ⊢
    exact h
  · intro f env l1 l2 ls hfalse
    obtain ⟨r, hr⟩ := gen1_arithSpec_total .add
      (by intro h; exact ArithOp.noConfusion h) l1 l2 ls
    obtain ⟨q, hq⟩ := gen1_arithSpec_promotes .add l1 l2 ls r hr hfalse
    refine ⟨q, ?_⟩
    have hb : Gen1.fn_add_num (ls.length + f + 1 + 1 + 1 + 1)
          ((l1 :: l2 :: ls).map Gen1.NumLit.toObj) env
        = Gen1.run (ls.length + f + 1 + 1 + 1)
            (.fn_arith .add ((l1 :: l2 :: ls).map Gen1.NumLit.toObj) env) := rfl
    rw [hb, gen1_fn_arith_numlits .add f env l1 l2 ls, hr, hq]
    rfl
  · intro f env l1 l2 ls hfalse
    obtain ⟨r, hr⟩ := gen1_arithSpec_total .sub
      (by intro h; exact ArithOp.noConfusion h) l1 l2 ls
    obtain ⟨q, hq⟩ := gen1_arithSpec_promotes .sub l1 l2 ls r hr hfalse
    refine ⟨q, ?_⟩
    have hb : Gen1.fn_sub_num (ls.length + f + 1 + 1 + 1 + 1)
          ((l1 :: l2 :: ls).map Gen1.NumLit.toObj) env
        = Gen1.run (ls.length + f + 1 + 1 + 1)
            (.fn_arith .sub ((l1 :: l2 :: ls).map Gen1.NumLit.toObj) env) := rfl
    rw [hb, gen1_fn_arith_numlits .sub f env l1 l2 ls, hr, hq]
    rfl
  · intro f env l1 l2 ls hfalse
    obtain ⟨r, hr⟩ := gen1_arithSpec_total .mul
      (by intro h; exact ArithOp.noConfusion h) l1 l2 ls
    obtain ⟨q, hq⟩ := gen1_arithSpec_promotes .mul l1 l2 ls r hr hfalse
    refine ⟨q, ?_⟩
    have hb : Gen1.fn_mul_num (ls.length + f + 1 + 1 + 1 + 1)
          ((l1 :: l2 :: ls).map Gen1.NumLit.toObj) env
        = Gen1.run (ls.length + f + 1 + 1 + 1)
            (.fn_arith .mul ((l1 :: l2 :: ls).map Gen1.NumLit.toObj) env) := rfl
    rw [hb, gen1_fn_arith_numlits .mul f env l1 l2 ls, hr, hq]
    rfl
  · intro f env l1 l2 ls r hfalse hspec
    obtain ⟨q, hq⟩ := gen1_arithSpec_promotes .div l1 l2 ls r hspec hfalse
    refine ⟨q, ?_⟩
    have hb : Gen1.fn_div_num (ls.length + f + 1 + 1 + 1 + 1)
          ((l1 :: l2 :: ls).map Gen1.NumLit.toObj) env
        = Gen1.run (ls.length + f + 1 + 1 + 1)
            (.fn_arith .div ((l1 :: l2 :: ls).map Gen1.NumLit.toObj) env) := rfl
    rw [hb, gen1_fn_arith_numlits .div f env l1 l2 ls, hspec, hq]
    rfl

/-- Witness for C5's amended claim: `(+ 1 2 3) = 6`, `(- 10 1 2) = -7`,
`(* 2 3 4) = 24`, `(/ 12 2 3) = 3 / (12 / 2) = 0`, and `(+ 1.0 2)`,
`(- 1.0 2)`, `(* 1.0 2)`, `(/ 1.0 2)` are all `Number`s. -/
theorem C5_arith_fold_amended_witness :
    (Gen1.fn_add_num 5 [.integer 1, .integer 2, .integer 3] [[]]
      = .ok (.obj (.integer 6)))
    ∧ (Gen1.fn_sub_num 5 [.integer 10, .integer 1, .integer 2] [[]]
      = .ok (.obj (.integer (-7))))
    ∧ (Gen1.fn_mul_num 5 [.integer 2, .integer 3, .integer 4] [[]]
      = .ok (.obj (.integer 24)))
    ∧ ((2 : Int) ≠ 0
      ∧ Gen1.divAccum (Int.tdiv 12 2) [3] = some 0
      ∧ Gen1.fn_div_num 5 [.integer 12, .integer 2, .integer 3] [[]]
        = .ok (.obj (.integer 0)))
    ∧ (∃ q : Rat, Gen1.fn_add_num 4 [.number 1, .integer 2] [[]]
      = .ok (.obj (.number q)))
    ∧ (∃ q : Rat, Gen1.fn_sub_num 4 [.number 1, .integer 2] [[]]
      = .ok (.obj (.number q)))
    ∧ (∃ q : Rat, Gen1.fn_mul_num 4 [.number 1, .integer 2] [[]]
      = .ok (.obj (.number q)))
    ∧ (Gen1.allInt [.num 1, .int 2] = false
      ∧ Gen1.arithSpec .div (.num 1) (.int 2) []
        = some (.num (ratArith .div 1 ((2 : Int) : Rat)))
      ∧ ∃ q : Rat, Gen1.fn_div_num 4 [.number 1, .integer 2] [[]]
        = .ok (.obj (.number q))) :=
  ⟨C5_arith_fold_amended.1 0 [[]] 1 2 [3],
   C5_arith_fold_amended.2.1 0 [[]] 10 1 [2],
   C5_arith_fold_amended.2.2.1 0 [[]] 2 3 [4],
   ⟨by decide, by decide,
    C5_arith_fold_amended.2.2.2.1 0 [[]] 12 2 [3] 0 (by decide) (by decide)⟩,
   C5_arith_fold_amended.2.2.2.2.1 0 [[]] (.num 1) (.int 2) [] rfl,
   C5_arith_fold_amended.2.2.2.2.2.1 0 [[]] (.num 1) (.int 2) [] rfl,
   C5_arith_fold_amended.2.2.2.2.2.2.1 0 [[]] (.num 1) (.int 2) [] rfl,
   ⟨rfl, rfl,
    C5_arith_fold_amended.2.2.2.2.2.2.2 0 [[]] (.num 1) (.int 2) []
      (.num (ratArith .div 1 ((2 : Int) : Rat))) rfl rfl⟩⟩

/-- C6 counterexample: the claim quantifies over every split point
`k < n`, but at `k = 0` the code crashes.  `apply_func` applied to zero
arguments returns a `PartiallyAppliedFunction` whose stored chain is the
null pointer, and `apply_part_func` then calls `append` through that null
pointer — undefined behaviour — whereas the single full application
returns the function's value (`7` here). -/
theorem C6_zero_split_counterexample :
    Gen1.apply_func 9 ["x"] [.integer 7] [] [[]]
      = .ok (.obj (.partFunc ["x"] [.integer 7] []))
    ∧ Gen1.apply_part_func 9 ["x"] [.integer 7] [] [.integer 5] [[]]
      = .ub "apply_part_func: append called through a null List pointer"
    ∧ Gen1.apply_func 9 ["x"] [.integer 7] [.integer 5] [[]]
      = .ok (.obj (.integer 7)) :=
  ⟨rfl, rfl, rfl⟩

/-- C6 (amended): for every split point `k` with `1 ≤ k < n`, applying the
function to the first `k` raw arguments returns the
`PartiallyAppliedFunction` holding exactly those arguments (no body runs,
nothing is evaluated), and resuming it with the remaining arguments is the
very same call as a single `apply_func` on the concatenated argument
list — so the two routes produce the same result. -/
theorem C6_split_application_amended :
    ∀ (f : Nat) (ps : List String) (body args1 args2 : List Gen1.Obj)
      (env : Gen1.Env),
      args1 ≠ [] → args1.length < ps.length →
      (args1 ++ args2).length = ps.length →
      Gen1.apply_func (f+1) ps body args1 env
          = .ok (.obj (.partFunc ps body args1))
      ∧ Gen1.apply_part_func (f+1) ps body args1 args2 env
          = Gen1.apply_func f ps body (args1 ++ args2) env := by
  intro f ps body args1 args2 env hne hlt _
  constructor
  · have h1 : ¬ args1.length > ps.length := by omega
    have h2 : ¬ args1.length = ps.length := by omega
    simp [Gen1.apply_func, Gen1.run, h1, h2]
  · obtain ⟨a, rest, rfl⟩ : ∃ a rest, args1 = a :: rest := by
      cases args1 with
      | nil => exact absurd rfl hne
      | cons a rest => exact ⟨a, rest, rfl⟩
    rfl

/-- Witness for C6's amended claim at `n = 2`, `k = 1`. -/
theorem C6_split_application_amended_witness :
    Gen1.apply_func 6 ["x", "y"] [.symbol "x"] [.integer 1] [[]]
      = .ok (.obj (.partFunc ["x", "y"] [.symbol "x"] [.integer 1]))
    ∧ Gen1.apply_part_func 6 ["x", "y"] [.symbol "x"] [.integer 1] [.integer 2] [[]]
      = Gen1.apply_func 5 ["x", "y"] [.symbol "x"]
          ([.integer 1] ++ [.integer 2]) [[]] :=
  C6_split_application_amended 5 ["x", "y"] [.symbol "x"] [.integer 1]
    [.integer 2] [[]] (by simp) (by decide) (by decide)

/-- The binding loop of the `main.cpp` `apply_func` agrees with the
claim-shaped description: when evaluating the argument expressions in the
caller's environment yields the value list `vs`, the loop returns the
child environment with parameters bound pairwise to `vs`; when that
evaluation throws, the loop throws the same exception. -/
theorem gen1_bind_args_spec :
    ∀ (ps : List String) (args : List Gen1.Obj) (f : Nat) (env temp : Gen1.Env),
      ps.length = args.length →
      (∀ vs, Gen1.evalArgsSpec f args env = .ok (.objs vs) →
        Gen1.bind_args f ps args env temp
          = .ok (.env (Gen1.bindPairwise temp ps vs)))
      ∧ (∀ m, Gen1.evalArgsSpec f args env = .exn m →
        Gen1.bind_args f ps args env temp = .exn m) := by
  intro ps
  induction ps with
  | nil =>
    intro args f env temp hlen
    cases args with
    | cons a r => simp at hlen
    | nil =>
      match f with
      | 0 =>
        refine ⟨?_, ?_⟩
        · intro vs h; simp [Gen1.evalArgsSpec] at h
        · intro m h; simp [Gen1.evalArgsSpec] at h
      | g+1 =>
        refine ⟨?_, ?_⟩
        · intro vs h
          simp [Gen1.evalArgsSpec] at h
          subst h
          rfl
        · intro m h
          simp [Gen1.evalArgsSpec] at h
  | cons p ps2 ih =>
    intro args f env temp hlen
    cases args with
    | nil => simp at hlen
    | cons a args2 =>
      have hlen2 : ps2.length = args2.length := by simpa using hlen
      match f with
      | 0 =>
        refine ⟨?_, ?_⟩
        · intro vs h; simp [Gen1.evalArgsSpec] at h
        · intro m h; simp [Gen1.evalArgsSpec] at h
      | g+1 =>
        have hspec_eq : Gen1.evalArgsSpec (g+1) (a :: args2) env =
            (match Gen1.run g (.eval a env) with
             | .ok (.obj v) =>
               (match Gen1.evalArgsSpec g args2 env with
                | .ok (.objs vs) => .ok (.objs (v :: vs))
                | .ok _ => .ub "spec: argument evaluation produced a non-object result"
                | .exn m => .exn m
                | .ub m => .ub m
                | .exited c => .exited c
                | .timeout => .timeout)
             | .ok _ => .ub "spec: argument evaluation produced a non-object result"
             | .exn m => .exn m
             | .ub m => .ub m
             | .exited c => .exited c
             | .timeout => .timeout) := rfl
        have hbind_eq : Gen1.bind_args (g+1) (p :: ps2) (a :: args2) env temp =
            (match Gen1.run g (.eval a env) with
             | .ok (.obj v) => Gen1.bind_args g ps2 args2 env (Gen1.set_obj temp p v)
             | r => r) := rfl
        cases heval : Gen1.run g (.eval a env) with
        | ok v =>
          cases v with
          | obj w =>
            refine ⟨?_, ?_⟩
            · intro vs h
              rw [hspec_eq, heval] at h
              rw [hbind_eq, heval]
              cases hrest : Gen1.evalArgsSpec g args2 env with
              | ok v2 =>
                cases v2 with
                | objs vs2 =>
                  rw [hrest] at h
                  simp at h
                  subst h
                  exact (ih args2 g env (Gen1.set_obj temp p w) hlen2).1 vs2 hrest
                | obj o2 => rw [hrest] at h; simp at h
                | env e2 => rw [hrest] at h; simp at h
              | exn m2 => rw [hrest] at h; simp at h
              | ub m2 => rw [hrest] at h; simp at h
              | exited c2 => rw [hrest] at h; simp at h
              | timeout => rw [hrest] at h; simp at h
            · intro m h
              rw [hspec_eq, heval] at h
              rw [hbind_eq, heval]
              cases hrest : Gen1.evalArgsSpec g args2 env with
              | ok v2 =>
                cases v2 with
                | objs vs2 => rw [hrest] at h; simp at h
                | obj o2 => rw [hrest] at h; simp at h
                | env e2 => rw [hrest] at h; simp at h
              | exn m2 =>
                rw [hrest] at h
                simp at h
                subst h
                exact (ih args2 g env (Gen1.set_obj temp p w) hlen2).2 m2 hrest
              | ub m2 => rw [hrest] at h; simp at h
              | exited c2 => rw [hrest] at h; simp at h
              | timeout => rw [hrest] at h; simp at h
          | env e =>
            refine ⟨?_, ?_⟩
            · intro vs h; rw [hspec_eq, heval] at h; simp at h
            · intro m h; rw [hspec_eq, heval] at h; simp at h
          | objs l =>
            refine ⟨?_, ?_⟩
            · intro vs h; rw [hspec_eq, heval] at h; simp at h
            · intro m h; rw [hspec_eq, heval] at h; simp at h
        | exn m0 =>
          refine ⟨?_, ?_⟩
          · intro vs h; rw [hspec_eq, heval] at h; simp at h
          · intro m h
            rw [hspec_eq, heval] at h
            simp at h
            subst h
            rw [hbind_eq, heval]
        | ub m0 =>
          refine ⟨?_, ?_⟩
          · intro vs h; rw [hspec_eq, heval] at h; simp at h
          · intro m h; rw [hspec_eq, heval] at h; simp at h
        | exited c0 =>
          refine ⟨?_, ?_⟩
          · intro vs h; rw [hspec_eq, heval] at h; simp at h
          · intro m h; rw [hspec_eq, heval] at h; simp at h
        | timeout =>
          refine ⟨?_, ?_⟩
          · intro vs h; rw [hspec_eq, heval] at h; simp at h
          · intro m h; rw [hspec_eq, heval] at h; simp at h

/-- C2: in `main.cpp` the combination's argument expressions are evaluated
in the caller's environment and the parameters are bound pairwise, in
order, to the RESULTING VALUES (first two conjuncts, relating the binding
loop to the claim-shaped evaluation).  In the modular generation
(`src/eval.cpp` line 222) the same claim FAILS: the binding loop stores
the raw argument expression `arg->value()` without evaluating it — binding
`x` to the quoted expression `(quote 1)` itself (third conjunct), although
evaluating that argument would give `1` (fourth conjunct), a different
object (fifth conjunct). -/
theorem C2_arguments_evaluated_then_bound :
    (∀ (ps : List String) (args : List Gen1.Obj) (f : Nat) (env temp : Gen1.Env)
       (vs : List Gen1.Obj),
      ps.length = args.length →
      Gen1.evalArgsSpec f args env = .ok (.objs vs) →
      Gen1.bind_args f ps args env temp
        = .ok (.env (Gen1.bindPairwise temp ps vs)))
    ∧ (∀ (ps : List String) (args : List Gen1.Obj) (f : Nat) (env temp : Gen1.Env)
       (m : String),
      ps.length = args.length →
      Gen1.evalArgsSpec f args env = .exn m →
      Gen1.bind_args f ps args env temp = .exn m)
    ∧ (∀ f : Nat, Gen2.bind_loop (f+2) [.symbol "x"] [.quoted (.integer 1)] [[]]
        = .ok (.env [[("x", Gen2.Obj.quoted (.integer 1))]]))
    ∧ (∀ f : Nat, Gen2.eval (f+1) (.quoted (.integer 1)) [[]]
        = .ok (.obj (.integer 1)))
    ∧ Gen2.Obj.quoted (.integer 1) ≠ .integer 1 := by
  refine ⟨?_, ?_, ?_, ?_, ?_⟩
  · intro ps args f env temp vs hlen h
    exact (gen1_bind_args_spec ps args f env temp hlen).1 vs h
  · intro ps args f env temp m hlen h
    exact (gen1_bind_args_spec ps args f env temp hlen).2 m h
  · intro f; rfl
  · intro f; rfl
  · simp

/-- Witness for C2 at a concrete input: binding `(x y)` to the arguments
`(1 (quote 2))` in an environment holding the `quote` builtin evaluates
both arguments in that environment first and binds the values `1` and
`2`. -/
theorem C2_arguments_evaluated_then_bound_witness :
    Gen1.bind_args 6 ["x", "y"]
        [.integer 1, .list (.symbol "quote") [.integer 2]]
        [[("quote", .funcPtr .fn_quote)]] [[]]
      = .ok (.env (Gen1.bindPairwise [[]] ["x", "y"] [.integer 1, .integer 2])) :=
  C2_arguments_evaluated_then_bound.1 ["x", "y"]
    [.integer 1, .list (.symbol "quote") [.integer 2]] 6
    [[("quote", .funcPtr .fn_quote)]] [[]] [.integer 1, .integer 2]
    (by decide) rfl

/-- `main.cpp` `Env::get_obj` returns exactly the binding of the nearest
frame (smallest index in the outer chain) that binds the name. -/
theorem gen1_get_obj_nearest :
    ∀ (env : Gen1.Env) (s : String) (v : Gen1.Obj),
      Gen1.get_obj env s = some v ↔
        ∃ i, i < env.length ∧ Gen1.lookupSym (env.getD i []) s = some v
          ∧ ∀ j, j < i → Gen1.lookupSym (env.getD j []) s = none := by
  intro env
  induction env with
  | nil =>
    intro s v
    constructor
    · intro h; simp [Gen1.get_obj] at h
    · rintro ⟨i, hi, _, _⟩; simp at hi
  | cons tbl rest ih =>
    intro s v
    have hunfold : Gen1.get_obj (tbl :: rest) s =
        (match Gen1.lookupSym tbl s with
         | some w => some w
         | none => Gen1.get_obj rest s) := rfl
    constructor
    · intro h
      rw [hunfold] at h
      cases hl : Gen1.lookupSym tbl s with
      | some w =>
        rw [hl] at h
        simp at h
        refine ⟨0, by simp, ?_, ?_⟩
        · rw [List.getD_cons_zero, hl, h]
        · intro j hj; omega
      | none =>
        rw [hl] at h
        obtain ⟨i, hi, hlook, hmin⟩ := (ih s v).mp h
        refine ⟨i+1, by simpa using hi, by simpa using hlook, ?_⟩
        intro j hj
        cases j with
        | zero => simpa [List.getD_cons_zero] using hl
        | succ j2 =>
          have := hmin j2 (by omega)
          simpa using this
    · rintro ⟨i, hi, hlook, hmin⟩
      rw [hunfold]
      cases hl : Gen1.lookupSym tbl s with
      | some w =>
        cases i with
        | zero =>
          rw [List.getD_cons_zero, hl] at hlook
          simpa using hlook
        | succ i2 =>
          have h0 := hmin 0 (by omega)
          rw [List.getD_cons_zero, hl] at h0
          simp at h0
      | none =>
        cases i with
        | zero =>
          rw [List.getD_cons_zero, hl] at hlook
          simp at hlook
        | succ i2 =>
          apply (ih s v).mpr
          refine ⟨i2, by simpa using hi, by simpa using hlook, ?_⟩
          intro j hj
          have := hmin (j+1) (by omega)
          simpa using this

/-- C4: in `main.cpp` symbol lookup starts at the current frame and walks
the `outer` chain: it returns the value from the nearest frame binding the
name (first conjunct), and evaluating the symbol throws the
unbound-symbol `EnvException` exactly when no frame binds it (second
conjunct).  In the modular generation (`src/env.cpp` 13-23) the same claim
FAILS: when the current frame misses and an outer environment EXISTS the
code throws at once instead of walking parent-ward (third conjunct, where
the parent binds `x`), and when the root frame misses it silently returns
`NIL` instead of raising the error (fourth conjunct). -/
theorem C4_symbol_lookup :
    (∀ (env : Gen1.Env) (s : String) (v : Gen1.Obj),
      Gen1.get_obj env s = some v ↔
        ∃ i, i < env.length ∧ Gen1.lookupSym (env.getD i []) s = some v
          ∧ ∀ j, j < i → Gen1.lookupSym (env.getD j []) s = none)
    ∧ (∀ (f : Nat) (env : Gen1.Env) (s : String),
      Gen1.get_obj env s = none →
      Gen1.eval (f+1) (.symbol s) env = .exn ("no such symbol exist: " ++ s))
    ∧ Gen2.get_obj [[], [("x", .integer 1)]] "x" = .exn "no such symbol exist: x"
    ∧ Gen2.get_obj [[]] "y" = .ok .nil := by
  refine ⟨gen1_get_obj_nearest, ?_, rfl, rfl⟩
  intro f env s h
  simp [Gen1.eval, Gen1.run, h]

/-- Witness for C4: in a two-frame chain whose inner frame shadows `x`,
lookup returns the inner binding, and an unbound symbol in the root
environment raises the unbound-symbol error. -/
theorem C4_symbol_lookup_witness :
    (∃ i, i < ([[("x", Gen1.Obj.integer 2)], [("x", Gen1.Obj.integer 1)]] : Gen1.Env).length
      ∧ Gen1.lookupSym (([[("x", Gen1.Obj.integer 2)], [("x", Gen1.Obj.integer 1)]] : Gen1.Env).getD i []) "x"
          = some (.integer 2)
      ∧ ∀ j, j < i →
          Gen1.lookupSym (([[("x", Gen1.Obj.integer 2)], [("x", Gen1.Obj.integer 1)]] : Gen1.Env).getD j []) "x"
            = none)
    ∧ Gen1.eval 3 (.symbol "y") [[]] = .exn ("no such symbol exist: " ++ "y") :=
  ⟨(C4_symbol_lookup.1 [[("x", .integer 2)], [("x", .integer 1)]] "x" (.integer 2)).mp rfl,
   C4_symbol_lookup.2.1 2 [[]] "y" rfl⟩
